import Mathlib

/-!
# signalfx-go: detector and incident endpoint methods

A shallow embedding of `detector.go` and `incident.go`.  Every endpoint
method is a program over an explicit world (the log of the effects performed
and the state of the response body stream), written statement by statement
after the Go source.
-/

namespace Signalfx

/-! ## Data model -/

/-- The Go `error` values these methods can return, by origin. -/
inductive Error where
  /-- An error returned by `json.Marshal`. -/
  | marshal (msg : String)
  /-- An error returned by `c.doRequest`. -/
  | transport (msg : String)
  /-- The error built by `newResponseError`: status code and body content. -/
  | api (code : Int) (details : List Char)
  /-- An error returned by `(*json.Decoder).Decode`. -/
  | decode (msg : String)
  deriving DecidableEq, Repr

/-- A Go pointer `*T`: `none` stands for `nil`. -/
abbrev Ptr (T : Type) := Option T

/-- A Go slice `[]T`: `none` stands for the `nil` slice. -/
abbrev Slice (T : Type) := Option (List T)

/-- The caller's `context.Context`, passed through to the dispatcher. -/
abbrev Context := Nat

/-- Go's `url.Values`, a map from a key to the list of its values, kept as an
association list in insertion order of the keys. -/
abbrev Values := List (String × List String)

/-- Go's `url.Values.Add`: append `value` to the values of `key`. -/
def Values.Add : Values → String → String → Values
  | [], key, value => [(key, [value])]
  | (k, vs) :: rest, key, value =>
    if k = key then (k, vs ++ [value]) :: rest
    else (k, vs) :: Values.Add rest key value

/-- The values stored under `key`, `none` when the map has no such key. -/
def Values.lookup : Values → String → Option (List String)
  | [], _ => none
  | (k, vs) :: rest, key => if k = key then some vs else Values.lookup rest key

/-- Go's `strconv.Itoa`. -/
def Itoa (n : Int) : String := toString n

/-- Go's `strconv.FormatBool`. -/
def FormatBool (b : Bool) : String := if b then "true" else "false"

/-- Go's `http.StatusOK`. -/
def StatusOK : Int := 200

/-- Go's `http.StatusNoContent`. -/
def StatusNoContent : Int := 204

/-- DetectorAPIURL is the base URL for interacting with detectors. -/
def DetectorAPIURL : String := "/v2/detector"

/-- IncidentAPIURL is the base `GetIncident` and `GetIncidents` dispatch to.
(The comment in the source calls it the base URL for alert muting rules.) -/
def IncidentAPIURL : String := "/v2/incident"

/-- The arguments of one `c.doRequest` call: verb, path, query parameters
(`nil` or a map) and request body (`nil` or a reader over the payload). -/
structure Request where
  ctx : Context
  method : String
  path : String
  params : Option Values
  body : Option String
  deriving DecidableEq, Repr

/-- A response body stream: the bytes it delivers before it ends, the number
of them already read, how many times `Close` was called on it, and how it
ends: `broken` when the read after the last byte delivered reports a read
error (connection reset, body cut off, context cancelled) instead of
end-of-stream. -/
structure Body where
  data : List Char
  pos : Nat
  closes : Nat
  broken : Bool
  deriving DecidableEq, Repr

/-- The stream is at end-of-stream: every byte has been read and the stream
ended there, not in a read error. -/
def Body.atEOF (b : Body) : Prop := b.pos = b.data.length ∧ b.broken = false

instance (b : Body) : Decidable b.atEOF := by unfold Body.atEOF; infer_instance

/-- The bytes not read yet. -/
def Body.rest (b : Body) : List Char := b.data.drop b.pos

/-- Read up to `n` more bytes (nothing is read from a closed stream). -/
def Body.read (b : Body) (n : Nat) : Body :=
  if b.closes = 0 then { b with pos := min (b.pos + n) b.data.length } else b

/-- Read until the stream ends, in end-of-stream or in its read error:
every byte it delivers is read (nothing is read from a closed stream). -/
def Body.readAll (b : Body) : Body :=
  if b.closes = 0 then { b with pos := b.data.length } else b

/-- One more call of `Close`. -/
def Body.close (b : Body) : Body := { b with closes := b.closes + 1 }

/-- The part of `*http.Response` the endpoint methods look at; its `Body` is
the stream held by the world. -/
structure Response where
  StatusCode : Int
  deriving DecidableEq, Repr

/-- The effects an endpoint method performs, in the order performed. -/
inductive Event where
  /-- A call of `c.doRequest`. -/
  | doRequest (req : Request)
  /-- A call of `newResponseError` with the expected status. -/
  | classify (target : Int)
  /-- A call of `json.NewDecoder(resp.Body).Decode`. -/
  | decode
  /-- A call of `io.Copy(ioutil.Discard, resp.Body)`. -/
  | drain
  /-- A call of `resp.Body.Close`. -/
  | close
  deriving DecidableEq, Repr

/-- The event is a call of the dispatcher. -/
def Event.isDoRequest : Event → Bool
  | .doRequest _ => true
  | _ => false

/-- The event is a call of the classifier. -/
def Event.isClassify : Event → Bool
  | .classify _ => true
  | _ => false

/-- The world an endpoint method runs in. -/
structure World where
  /-- The effects performed so far, oldest first. -/
  trace : List Event
  /-- The body stream of the response received, `none` while there is none. -/
  body : Option Body
  deriving DecidableEq, Repr

/-- The world before a call. -/
def World.init : World := { trace := [], body := none }

/-- Programs over the world. -/
def M (α : Type) : Type := World → α × World

/-- Return a value without touching the world. -/
def M.pure {α : Type} (a : α) : M α := fun w => (a, w)

/-- Run `x`, then `f` on its result. -/
def M.bind {α β : Type} (x : M α) (f : α → M β) : M β :=
  fun w => f (x w).1 (x w).2

instance : Monad M where
  pure := M.pure
  bind := M.bind

/-- Go's `defer`: `cleanup` runs when the rest of the function has returned
(the values returned are fixed before it runs). -/
def defer {α : Type} (cleanup : M Unit) (rest : M α) : M α := do
  let r ← rest
  cleanup
  pure r

/-- The transport behind `c.doRequest`: for each request either a transport
error or the status code of the response received and the bytes its body
delivers; and whether that body breaks off in a read error instead of
ending in end-of-stream. -/
structure Client where
  transport : Request → Except String (Int × List Char)
  breaks : Request → Bool

/-- Modelled from the spec: doRequest is defined in the client file of this
repository, which is not among the sources.  The spec's dispatcher builds
one request from verb, path, query parameters and body, issues exactly one
exchange, and returns the raw response together with any transport error;
what the exchange yields is the `transport` of the client.  A response
received arrives with an unread, open body stream. -/
def Client.doRequest (c : Client) (ctx : Context) (method path : String)
    (params : Option Values) (body : Option String) : M (Except Error Response) :=
  fun w =>
    let req : Request := ⟨ctx, method, path, params, body⟩
    let w1 : World := { w with trace := w.trace ++ [Event.doRequest req] }
    match c.transport req with
    | .error msg => (.error (Error.transport msg), w1)
    | .ok (status, data) =>
      (.ok ⟨status⟩, { w1 with body := some ⟨data, 0, 0, c.breaks req⟩ })

/-- The call `resp.Body.Close()`. -/
def Body.Close : M Unit :=
  fun w => ((), { trace := w.trace ++ [Event.close], body := w.body.map Body.close })

/-- The call `_, _ = io.Copy(ioutil.Discard, resp.Body)`: read the stream
until end-of-stream or its first read error; the error is discarded. -/
def Copy_Discard : M Unit :=
  fun w => ((), { trace := w.trace ++ [Event.drain], body := w.body.map Body.readAll })

/-- Modelled from the spec: newResponseError is defined in the client file of
this repository, which is not among the sources.  The spec's classification
policy: when the response status equals the expected status there is no
error; otherwise the result is an API error carrying the actual status code
and the content of the response body, which is read once, fully. -/
def newResponseError (resp : Response) (target : Int) : M (Option Error) :=
  fun w =>
    let w1 : World := { w with trace := w.trace ++ [Event.classify target] }
    if resp.StatusCode = target then (none, w1)
    else
      let details : List Char := match w1.body with
        | some b => if b.closes = 0 then b.rest else []
        | none => []
      (some (Error.api resp.StatusCode details), { w1 with body := w1.body.map Body.readAll })

/-- What one `Decode` call of `encoding/json` does on the unread input for a
target holding `value`: the target afterwards, the error returned, and the
number of bytes the decoder took from the stream. -/
structure Decoded (T : Type) where
  value : T
  err : Option String
  consumed : Nat

/-- The call `json.NewDecoder(resp.Body).Decode(target)`, for a decoder
`dec` of the target's type: `dec` says what `Decode` does on the unread bytes
the stream delivers up to its end. -/
def Decode {T : Type} (dec : List Char → T → Decoded T) (target : T) : M (T × Option Error) :=
  fun w =>
    let input : List Char := match w.body with
      | some b => if b.closes = 0 then b.rest else []
      | none => []
    let r := dec input target
    ((r.value, r.err.map Error.decode),
      { trace := w.trace ++ [Event.decode], body := w.body.map (fun b => b.read r.consumed) })

/-- The declarations of package `detector` the endpoint methods use.  The
package is not among the sources: its entity types are opaque payload
shapes, taken together with the zero values of the two the methods
allocate. -/
structure Shapes where
  Detector : Type
  Incident : Type
  Event : Type
  CreateUpdateDetectorRequest : Type
  ValidateDetectorRequestModel : Type
  /-- The value of `detector.Detector{}`. -/
  zeroDetector : Detector
  /-- The value of `detector.Incident{}`. -/
  zeroIncident : Incident

/-- Modelled from the spec: detector.SearchResults is declared in package
detector, which is not among the sources.  The spec's pagination shape: an
envelope distinguishing a total count from a results sequence. -/
structure SearchResults (S : Shapes) where
  Count : Int
  Results : Slice S.Detector

/-- The anonymous struct `GetDetectors` decodes into:
`struct { Count int; Results []*detector.Detector }`. -/
structure DetectorList (S : Shapes) where
  Count : Int
  Results : Slice (Ptr S.Detector)

/-- The behaviour of `encoding/json` on the types the endpoint methods
serialise and decode. -/
structure Json (S : Shapes) where
  marshalDetectorRequest : Ptr S.CreateUpdateDetectorRequest → Except String String
  marshalLabels : Slice String → Except String String
  marshalValidateRequest : Ptr S.ValidateDetectorRequestModel → Except String String
  decodeDetector : List Char → S.Detector → Decoded S.Detector
  decodeDetectorList : List Char → DetectorList S → Decoded (DetectorList S)
  decodeSearchResults : List Char → SearchResults S → Decoded (SearchResults S)
  decodeEvents : List Char → Slice (Ptr S.Event) → Decoded (Slice (Ptr S.Event))
  decodeIncidents : List Char → Slice (Ptr S.Incident) → Decoded (Slice (Ptr S.Incident))
  decodeIncident : List Char → S.Incident → Decoded S.Incident

/-- The call `json.Marshal(v)`, for an encoder `enc` of the type of `v`. -/
def Marshal {T : Type} (enc : T → Except String String) (v : T) : Except Error String :=
  match enc v with
  | .error msg => .error (Error.marshal msg)
  | .ok payload => .ok payload

/-! ## The endpoint methods of `detector.go` -/

section Methods

variable {S : Shapes}

/-- CreateDetector creates a detector. -/
def CreateDetector (J : Json S) (c : Client) (ctx : Context)
    (detectorRequest : Ptr S.CreateUpdateDetectorRequest) :
    M (Ptr S.Detector × Option Error) :=
  match Marshal J.marshalDetectorRequest detectorRequest with
  | .error err => pure (none, some err)
  | .ok payload => do
    match ← c.doRequest ctx "POST" DetectorAPIURL none (some payload) with
    | .error err => pure (none, some err)
    | .ok resp =>
      defer Body.Close do
        match ← newResponseError resp StatusOK with
        | some err => pure (none, some err)
        | none =>
          let finalDetector := S.zeroDetector
          let (finalDetector, err) ← Decode J.decodeDetector finalDetector
          Copy_Discard
          pure (some finalDetector, err)

/-- DeleteDetector deletes a detector. -/
def DeleteDetector (c : Client) (ctx : Context) (id : String) : M (Option Error) := do
  match ← c.doRequest ctx "DELETE" (DetectorAPIURL ++ "/" ++ id) none none with
  | .error err => pure (some err)
  | .ok resp =>
    defer Body.Close do
      match ← newResponseError resp StatusNoContent with
      | some err => pure (some err)
      | none =>
        Copy_Discard
        pure none

/-- DisableDetector disables a detector. -/
def DisableDetector (J : Json S) (c : Client) (ctx : Context) (id : String)
    (labels : Slice String) : M (Option Error) :=
  match Marshal J.marshalLabels labels with
  | .error err => pure (some err)
  | .ok payload => do
    match ← c.doRequest ctx "PUT" (DetectorAPIURL ++ "/" ++ id ++ "/disable") none (some payload) with
    | .error err => pure (some err)
    | .ok resp =>
      defer Body.Close do
        match ← newResponseError resp StatusNoContent with
        | some err => pure (some err)
        | none =>
          Copy_Discard
          pure none

/-- EnableDetector enables a detector. -/
def EnableDetector (J : Json S) (c : Client) (ctx : Context) (id : String)
    (labels : Slice String) : M (Option Error) :=
  match Marshal J.marshalLabels labels with
  | .error err => pure (some err)
  | .ok payload => do
    match ← c.doRequest ctx "PUT" (DetectorAPIURL ++ "/" ++ id ++ "/enable") none (some payload) with
    | .error err => pure (some err)
    | .ok resp =>
      defer Body.Close do
        match ← newResponseError resp StatusNoContent with
        | some err => pure (some err)
        | none =>
          Copy_Discard
          pure none

/-- GetDetector gets a detector. -/
def GetDetector (J : Json S) (c : Client) (ctx : Context) (id : String) :
    M (Ptr S.Detector × Option Error) := do
  match ← c.doRequest ctx "GET" (DetectorAPIURL ++ "/" ++ id) none none with
  | .error err => pure (none, some err)
  | .ok resp =>
    defer Body.Close do
      match ← newResponseError resp StatusOK with
      | some err => pure (none, some err)
      | none =>
        let finalDetector := S.zeroDetector
        let (finalDetector, err) ← Decode J.decodeDetector finalDetector
        Copy_Discard
        pure (some finalDetector, err)

/-- GetDetectors gets all detectors. -/
def GetDetectors (J : Json S) (c : Client) (ctx : Context) (limit : Int) (name : String)
    (offset : Int) : M (Slice (Ptr S.Detector) × Option Error) := do
  let params : Values := []
  let params := params.Add "limit" (Itoa limit)
  let params := params.Add "name" name
  let params := params.Add "offset" (Itoa offset)
  match ← c.doRequest ctx "GET" DetectorAPIURL (some params) none with
  | .error err => pure (none, some err)
  | .ok resp =>
    defer Body.Close do
      match ← newResponseError resp StatusOK with
      | some err => pure (none, some err)
      | none =>
        let allDetectors : DetectorList S := { Count := 0, Results := none }
        let (allDetectors, err) ← Decode J.decodeDetectorList allDetectors
        Copy_Discard
        pure (allDetectors.Results, err)

/-- UpdateDetector updates a detector. -/
def UpdateDetector (J : Json S) (c : Client) (ctx : Context) (id : String)
    (detectorRequest : Ptr S.CreateUpdateDetectorRequest) :
    M (Ptr S.Detector × Option Error) :=
  match Marshal J.marshalDetectorRequest detectorRequest with
  | .error err => pure (none, some err)
  | .ok payload => do
    match ← c.doRequest ctx "PUT" (DetectorAPIURL ++ "/" ++ id) none (some payload) with
    | .error err => pure (none, some err)
    | .ok resp =>
      defer Body.Close do
        match ← newResponseError resp StatusOK with
        | some err => pure (none, some err)
        | none =>
          let finalDetector := S.zeroDetector
          let (finalDetector, err) ← Decode J.decodeDetector finalDetector
          Copy_Discard
          pure (some finalDetector, err)

/-- SearchDetectors searches for detectors, given a query string in `name`. -/
def SearchDetectors (J : Json S) (c : Client) (ctx : Context) (limit : Int) (name : String)
    (offset : Int) (tags : String) : M (Ptr (SearchResults S) × Option Error) := do
  let params : Values := []
  let params := params.Add "limit" (Itoa limit)
  let params := params.Add "name" name
  let params := params.Add "offset" (Itoa offset)
  let params := if tags ≠ "" then params.Add "tags" tags else params
  match ← c.doRequest ctx "GET" DetectorAPIURL (some params) none with
  | .error err => pure (none, some err)
  | .ok resp =>
    defer Body.Close do
      match ← newResponseError resp StatusOK with
      | some err => pure (none, some err)
      | none =>
        let finalDetectors : SearchResults S := { Count := 0, Results := none }
        let (finalDetectors, err) ← Decode J.decodeSearchResults finalDetectors
        Copy_Discard
        pure (some finalDetectors, err)

/-- GetDetectorEvents gets a detector's events. -/
def GetDetectorEvents (J : Json S) (c : Client) (ctx : Context) (id : String)
    (fromArg toArg offset limit : Int) : M (Slice (Ptr S.Event) × Option Error) := do
  let params : Values := []
  let params := params.Add "from" (Itoa fromArg)
  let params := params.Add "to" (Itoa toArg)
  let params := params.Add "offset" (Itoa offset)
  let params := params.Add "limit" (Itoa limit)
  match ← c.doRequest ctx "GET" (DetectorAPIURL ++ "/" ++ id ++ "/events") (some params) none with
  | .error err => pure (none, some err)
  | .ok resp =>
    defer Body.Close do
      match ← newResponseError resp StatusOK with
      | some err => pure (none, some err)
      | none =>
        let events : Slice (Ptr S.Event) := none
        let (events, err) ← Decode J.decodeEvents events
        Copy_Discard
        pure (events, err)

/-- GetDetectorIncidents gets a detector's incidents. -/
def GetDetectorIncidents (J : Json S) (c : Client) (ctx : Context) (id : String)
    (offset limit : Int) : M (Slice (Ptr S.Incident) × Option Error) := do
  let params : Values := []
  let params := params.Add "offset" (Itoa offset)
  let params := params.Add "limit" (Itoa limit)
  match ← c.doRequest ctx "GET" (DetectorAPIURL ++ "/" ++ id ++ "/incidents") (some params) none with
  | .error err => pure (none, some err)
  | .ok resp =>
    defer Body.Close do
      match ← newResponseError resp StatusOK with
      | some err => pure (none, some err)
      | none =>
        let incidents : Slice (Ptr S.Incident) := none
        let (incidents, err) ← Decode J.decodeIncidents incidents
        Copy_Discard
        pure (incidents, err)

/-- ValidateDetector validates a detector. -/
def ValidateDetector (J : Json S) (c : Client) (ctx : Context)
    (detectorRequest : Ptr S.ValidateDetectorRequestModel) : M (Option Error) :=
  match Marshal J.marshalValidateRequest detectorRequest with
  | .error err => pure (some err)
  | .ok payload => do
    match ← c.doRequest ctx "POST" (DetectorAPIURL ++ "/validate") none (some payload) with
    | .error err => pure (some err)
    | .ok resp =>
      defer Body.Close do
        match ← newResponseError resp StatusNoContent with
        | some err => pure (some err)
        | none =>
          Copy_Discard
          pure none

/-! ## The endpoint methods of `incident.go` -/

/-- Get incident with the given id. -/
def GetIncident (J : Json S) (c : Client) (ctx : Context) (id : String) :
    M (Ptr S.Incident × Option Error) := do
  match ← c.doRequest ctx "GET" (IncidentAPIURL ++ "/" ++ id) none none with
  | .error err => pure (none, some err)
  | .ok resp =>
    defer Body.Close do
      match ← newResponseError resp StatusOK with
      | some err => pure (none, some err)
      | none =>
        let finalIncident := S.zeroIncident
        let (finalIncident, err) ← Decode J.decodeIncident finalIncident
        Copy_Discard
        pure (some finalIncident, err)

/-- Get all incidents.  The source has no `defer resp.Body.Close()` here. -/
def GetIncidents (J : Json S) (c : Client) (ctx : Context) (includeResolved : Bool)
    (limit : Int) (query : String) (offset : Int) :
    M (Slice (Ptr S.Incident) × Option Error) := do
  let params : Values := []
  let params := params.Add "includeResolved" (FormatBool includeResolved)
  let params := params.Add "limit" (Itoa limit)
  let params := params.Add "query" query
  let params := params.Add "offset" (Itoa offset)
  match ← c.doRequest ctx "GET" IncidentAPIURL (some params) none with
  | .error err => pure (none, some err)
  | .ok resp =>
    match ← newResponseError resp StatusOK with
    | some err => pure (none, some err)
    | none =>
      let incidents : Slice (Ptr S.Incident) := none
      let (incidents, err) ← Decode J.decodeIncidents incidents
      Copy_Discard
      pure (incidents, err)

end Methods

/-! ## All endpoint methods at once -/

/-- One invocation of an endpoint method: which method, and its arguments
after the context. -/
inductive Call (S : Shapes) where
  | CreateDetector (detectorRequest : Ptr S.CreateUpdateDetectorRequest)
  | DeleteDetector (id : String)
  | DisableDetector (id : String) (labels : Slice String)
  | EnableDetector (id : String) (labels : Slice String)
  | GetDetector (id : String)
  | GetDetectors (limit : Int) (name : String) (offset : Int)
  | UpdateDetector (id : String) (detectorRequest : Ptr S.CreateUpdateDetectorRequest)
  | SearchDetectors (limit : Int) (name : String) (offset : Int) (tags : String)
  | GetDetectorEvents (id : String) (fromArg toArg offset limit : Int)
  | GetDetectorIncidents (id : String) (offset limit : Int)
  | ValidateDetector (detectorRequest : Ptr S.ValidateDetectorRequestModel)
  | GetIncident (id : String)
  | GetIncidents (includeResolved : Bool) (limit : Int) (query : String) (offset : Int)

/-- What an endpoint method returns, by return type. -/
inductive Reply (S : Shapes) where
  | detector (d : Ptr S.Detector) (err : Option Error)
  | detectors (ds : Slice (Ptr S.Detector)) (err : Option Error)
  | search (r : Ptr (SearchResults S)) (err : Option Error)
  | events (es : Slice (Ptr S.Event)) (err : Option Error)
  | incidents (is : Slice (Ptr S.Incident)) (err : Option Error)
  | incident (i : Ptr S.Incident) (err : Option Error)
  /-- The methods returning only an `error`. -/
  | status (err : Option Error)

/-- The `error` returned. -/
def Reply.err {S : Shapes} : Reply S → Option Error
  | .detector _ e => e
  | .detectors _ e => e
  | .search _ e => e
  | .events _ e => e
  | .incidents _ e => e
  | .incident _ e => e
  | .status e => e

/-- No decoded value is returned: the result is `nil`, or the method has no
result besides the `error`. -/
def Reply.isNil {S : Shapes} : Reply S → Bool
  | .detector d _ => d.isNone
  | .detectors ds _ => ds.isNone
  | .search r _ => r.isNone
  | .events es _ => es.isNone
  | .incidents is _ => is.isNone
  | .incident i _ => i.isNone
  | .status _ => true

/-- The method returns a value besides the `error`. -/
def Reply.hasValueType {S : Shapes} : Reply S → Bool
  | .status _ => false
  | _ => true

/-- Apply `f` to the value a program returns. -/
def M.map {α β : Type} (f : α → β) (x : M α) : M β :=
  fun w => (f (x w).1, (x w).2)

/-- Run the method a call names on the call's arguments. -/
def Call.run {S : Shapes} (J : Json S) (c : Client) (ctx : Context) : Call S → M (Reply S)
  | .CreateDetector r => M.map (fun x => .detector x.1 x.2) (Signalfx.CreateDetector J c ctx r)
  | .DeleteDetector id => M.map .status (Signalfx.DeleteDetector c ctx id)
  | .DisableDetector id ls => M.map .status (Signalfx.DisableDetector J c ctx id ls)
  | .EnableDetector id ls => M.map .status (Signalfx.EnableDetector J c ctx id ls)
  | .GetDetector id => M.map (fun x => .detector x.1 x.2) (Signalfx.GetDetector J c ctx id)
  | .GetDetectors l n o => M.map (fun x => .detectors x.1 x.2) (Signalfx.GetDetectors J c ctx l n o)
  | .UpdateDetector id r => M.map (fun x => .detector x.1 x.2) (Signalfx.UpdateDetector J c ctx id r)
  | .SearchDetectors l n o t =>
    M.map (fun x => .search x.1 x.2) (Signalfx.SearchDetectors J c ctx l n o t)
  | .GetDetectorEvents id f t o l =>
    M.map (fun x => .events x.1 x.2) (Signalfx.GetDetectorEvents J c ctx id f t o l)
  | .GetDetectorIncidents id o l =>
    M.map (fun x => .incidents x.1 x.2) (Signalfx.GetDetectorIncidents J c ctx id o l)
  | .ValidateDetector r => M.map .status (Signalfx.ValidateDetector J c ctx r)
  | .GetIncident id => M.map (fun x => .incident x.1 x.2) (Signalfx.GetIncident J c ctx id)
  | .GetIncidents r l q o =>
    M.map (fun x => .incidents x.1 x.2) (Signalfx.GetIncidents J c ctx r l q o)

/-- One invocation from the initial world: what is returned, and the world
when the method returns. -/
def exec {S : Shapes} (J : Json S) (c : Client) (ctx : Context) (call : Call S) :
    Reply S × World :=
  call.run J c ctx World.init

/-! ## The endpoint table

The spec reads the endpoint methods as a table of verb, path, query
parameters, expected status and response shape, consumed by one generic
routine.  The table and the routine are written out here; `exec_eq_pipeline`
below proves that the thirteen methods of the source are instances of it. -/

/-- The verb of an endpoint. -/
def Call.verb {S : Shapes} : Call S → String
  | .CreateDetector _ => "POST"
  | .DeleteDetector _ => "DELETE"
  | .DisableDetector _ _ => "PUT"
  | .EnableDetector _ _ => "PUT"
  | .GetDetector _ => "GET"
  | .GetDetectors _ _ _ => "GET"
  | .UpdateDetector _ _ => "PUT"
  | .SearchDetectors _ _ _ _ => "GET"
  | .GetDetectorEvents _ _ _ _ _ => "GET"
  | .GetDetectorIncidents _ _ _ => "GET"
  | .ValidateDetector _ => "POST"
  | .GetIncident _ => "GET"
  | .GetIncidents _ _ _ _ => "GET"

/-- The resource base of an endpoint. -/
def Call.base {S : Shapes} : Call S → String
  | .GetIncident _ => "/v2/incident"
  | .GetIncidents _ _ _ _ => "/v2/incident"
  | _ => "/v2/detector"

/-- For a by-id operation, `"/"` followed by the id; empty otherwise. -/
def Call.idPart {S : Shapes} : Call S → String
  | .DeleteDetector id => "/" ++ id
  | .DisableDetector id _ => "/" ++ id
  | .EnableDetector id _ => "/" ++ id
  | .GetDetector id => "/" ++ id
  | .UpdateDetector id _ => "/" ++ id
  | .GetDetectorEvents id _ _ _ _ => "/" ++ id
  | .GetDetectorIncidents id _ _ => "/" ++ id
  | .GetIncident id => "/" ++ id
  | _ => ""

/-- The fixed sub-resource suffix of an endpoint. -/
def Call.suffix {S : Shapes} : Call S → String
  | .DisableDetector _ _ => "/disable"
  | .EnableDetector _ _ => "/enable"
  | .GetDetectorEvents _ _ _ _ _ => "/events"
  | .GetDetectorIncidents _ _ _ => "/incidents"
  | .ValidateDetector _ => "/validate"
  | _ => ""

/-- The expected success status of an endpoint: 204 for the four no-content
endpoints, 200 for the nine that return a body. -/
def Call.expected {S : Shapes} : Call S → Int
  | .DeleteDetector _ => 204
  | .DisableDetector _ _ => 204
  | .EnableDetector _ _ => 204
  | .ValidateDetector _ => 204
  | .CreateDetector _ => 200
  | .GetDetector _ => 200
  | .GetDetectors _ _ _ => 200
  | .UpdateDetector _ _ => 200
  | .SearchDetectors _ _ _ _ => 200
  | .GetDetectorEvents _ _ _ _ _ => 200
  | .GetDetectorIncidents _ _ _ => 200
  | .GetIncident _ => 200
  | .GetIncidents _ _ _ _ => 200

/-- The endpoint is one of the four no-content endpoints. -/
def Call.noContent {S : Shapes} : Call S → Bool
  | .DeleteDetector _ => true
  | .DisableDetector _ _ => true
  | .EnableDetector _ _ => true
  | .ValidateDetector _ => true
  | _ => false

/-- The endpoint returns a pointer to one decoded entity. -/
def Call.returnsPointer {S : Shapes} : Call S → Bool
  | .CreateDetector _ => true
  | .GetDetector _ => true
  | .UpdateDetector _ _ => true
  | .SearchDetectors _ _ _ _ => true
  | .GetIncident _ => true
  | _ => false

/-- The path an endpoint method passes to the dispatcher, as the source
builds it. -/
def Call.path {S : Shapes} : Call S → String
  | .CreateDetector _ => DetectorAPIURL
  | .DeleteDetector id => DetectorAPIURL ++ "/" ++ id
  | .DisableDetector id _ => DetectorAPIURL ++ "/" ++ id ++ "/disable"
  | .EnableDetector id _ => DetectorAPIURL ++ "/" ++ id ++ "/enable"
  | .GetDetector id => DetectorAPIURL ++ "/" ++ id
  | .GetDetectors _ _ _ => DetectorAPIURL
  | .UpdateDetector id _ => DetectorAPIURL ++ "/" ++ id
  | .SearchDetectors _ _ _ _ => DetectorAPIURL
  | .GetDetectorEvents id _ _ _ _ => DetectorAPIURL ++ "/" ++ id ++ "/events"
  | .GetDetectorIncidents id _ _ => DetectorAPIURL ++ "/" ++ id ++ "/incidents"
  | .ValidateDetector _ => DetectorAPIURL ++ "/validate"
  | .GetIncident id => IncidentAPIURL ++ "/" ++ id
  | .GetIncidents _ _ _ _ => IncidentAPIURL

/-- The query parameters an endpoint method passes to the dispatcher, as the
source builds them. -/
def Call.params {S : Shapes} : Call S → Option Values
  | .GetDetectors limit name offset =>
    let params : Values := []
    let params := params.Add "limit" (Itoa limit)
    let params := params.Add "name" name
    let params := params.Add "offset" (Itoa offset)
    some params
  | .SearchDetectors limit name offset tags =>
    let params : Values := []
    let params := params.Add "limit" (Itoa limit)
    let params := params.Add "name" name
    let params := params.Add "offset" (Itoa offset)
    let params := if tags ≠ "" then params.Add "tags" tags else params
    some params
  | .GetDetectorEvents _ fromArg toArg offset limit =>
    let params : Values := []
    let params := params.Add "from" (Itoa fromArg)
    let params := params.Add "to" (Itoa toArg)
    let params := params.Add "offset" (Itoa offset)
    let params := params.Add "limit" (Itoa limit)
    some params
  | .GetDetectorIncidents _ offset limit =>
    let params : Values := []
    let params := params.Add "offset" (Itoa offset)
    let params := params.Add "limit" (Itoa limit)
    some params
  | .GetIncidents includeResolved limit query offset =>
    let params : Values := []
    let params := params.Add "includeResolved" (FormatBool includeResolved)
    let params := params.Add "limit" (Itoa limit)
    let params := params.Add "query" query
    let params := params.Add "offset" (Itoa offset)
    some params
  | _ => none

/-- The request payload of an endpoint: none, or the serialised argument,
or the error of `json.Marshal`. -/
def Call.payload {S : Shapes} (J : Json S) : Call S → Except Error (Option String)
  | .CreateDetector r => (Marshal J.marshalDetectorRequest r).map some
  | .DisableDetector _ labels => (Marshal J.marshalLabels labels).map some
  | .EnableDetector _ labels => (Marshal J.marshalLabels labels).map some
  | .UpdateDetector _ r => (Marshal J.marshalDetectorRequest r).map some
  | .ValidateDetector r => (Marshal J.marshalValidateRequest r).map some
  | _ => .ok none

/-- The request of an invocation, or the serialisation error. -/
def Call.request {S : Shapes} (J : Json S) (ctx : Context) (call : Call S) :
    Except Error Request :=
  (call.payload J).map (fun body => ⟨ctx, call.verb, call.path, call.params, body⟩)

/-- The return `nil, err` (or `err`) of an endpoint. -/
def Call.nilReply {S : Shapes} : Call S → Error → Reply S
  | .CreateDetector _, e => .detector none (some e)
  | .DeleteDetector _, e => .status (some e)
  | .DisableDetector _ _, e => .status (some e)
  | .EnableDetector _ _, e => .status (some e)
  | .GetDetector _, e => .detector none (some e)
  | .GetDetectors _ _ _, e => .detectors none (some e)
  | .UpdateDetector _ _, e => .detector none (some e)
  | .SearchDetectors _ _ _ _, e => .search none (some e)
  | .GetDetectorEvents _ _ _ _ _, e => .events none (some e)
  | .GetDetectorIncidents _ _ _, e => .incidents none (some e)
  | .ValidateDetector _, e => .status (some e)
  | .GetIncident _, e => .incident none (some e)
  | .GetIncidents _ _ _ _, e => .incidents none (some e)

/-- The error, if any, `encoding/json` reports when the unread `input` is
decoded into the fresh target of the endpoint (`none` also for the endpoints
that decode nothing). -/
def Call.decodeErr {S : Shapes} (J : Json S) : Call S → List Char → Option String
  | .CreateDetector _, input => (J.decodeDetector input S.zeroDetector).err
  | .GetDetector _, input => (J.decodeDetector input S.zeroDetector).err
  | .GetDetectors _ _ _, input => (J.decodeDetectorList input ⟨0, none⟩).err
  | .UpdateDetector _ _, input => (J.decodeDetector input S.zeroDetector).err
  | .SearchDetectors _ _ _ _, input => (J.decodeSearchResults input ⟨0, none⟩).err
  | .GetDetectorEvents _ _ _ _ _, input => (J.decodeEvents input none).err
  | .GetDetectorIncidents _ _ _, input => (J.decodeIncidents input none).err
  | .GetIncident _, input => (J.decodeIncident input S.zeroIncident).err
  | .GetIncidents _ _ _ _, input => (J.decodeIncidents input none).err
  | _, _ => none

/-- The value an endpoint returns next to the decoder's error once the
status matched: the decode target as the decoder left it. -/
def Call.decoded {S : Shapes} (J : Json S) (call : Call S) (input : List Char) : Reply S :=
  let err := (call.decodeErr J input).map Error.decode
  match call with
  | .CreateDetector _ => .detector (some (J.decodeDetector input S.zeroDetector).value) err
  | .GetDetector _ => .detector (some (J.decodeDetector input S.zeroDetector).value) err
  | .GetDetectors _ _ _ => .detectors (J.decodeDetectorList input ⟨0, none⟩).value.Results err
  | .UpdateDetector _ _ => .detector (some (J.decodeDetector input S.zeroDetector).value) err
  | .SearchDetectors _ _ _ _ =>
    .search (some (J.decodeSearchResults input ⟨0, none⟩).value) err
  | .GetDetectorEvents _ _ _ _ _ => .events (J.decodeEvents input none).value err
  | .GetDetectorIncidents _ _ _ => .incidents (J.decodeIncidents input none).value err
  | .GetIncident _ => .incident (some (J.decodeIncident input S.zeroIncident).value) err
  | .GetIncidents _ _ _ _ => .incidents (J.decodeIncidents input none).value err
  | _ => .status none

/-- The endpoint method releases the body with a deferred `Close`: all but
`GetIncidents`. -/
def Call.defersClose {S : Shapes} : Call S → Bool
  | .GetIncidents _ _ _ _ => false
  | _ => true

/-- The generic routine: serialise, dispatch once, classify, decode unless
the endpoint has no content, drain, release. -/
def pipeline {S : Shapes} (J : Json S) (c : Client) (ctx : Context) (call : Call S) :
    Reply S × World :=
  match call.request J ctx with
  | .error e => (call.nilReply e, World.init)
  | .ok req =>
    match c.transport req with
    | .error msg => (call.nilReply (Error.transport msg), ⟨[Event.doRequest req], none⟩)
    | .ok (status, data) =>
      let released : List Event := if call.defersClose then [Event.close] else []
      let body : Body := ⟨data, data.length, if call.defersClose then 1 else 0, c.breaks req⟩
      if status = call.expected then
        let decoding : List Event := if call.noContent then [] else [Event.decode]
        (call.decoded J data,
          ⟨[Event.doRequest req, Event.classify call.expected] ++ decoding ++ [Event.drain]
            ++ released, some body⟩)
      else
        (call.nilReply (Error.api status data),
          ⟨[Event.doRequest req, Event.classify call.expected] ++ released, some body⟩)

/-- The dispatcher was called with `req` during the invocation. -/
def Dispatched {S : Shapes} (J : Json S) (c : Client) (ctx : Context) (call : Call S)
    (req : Request) : Prop :=
  Event.doRequest req ∈ (exec J c ctx call).2.trace

instance {S : Shapes} (J : Json S) (c : Client) (ctx : Context) (call : Call S)
    (req : Request) : Decidable (Dispatched J c ctx call req) := by
  unfold Dispatched; infer_instance

/-- The dispatcher was called during the invocation and returned a response
with this status code and a body that delivers these bytes. -/
def Received {S : Shapes} (J : Json S) (c : Client) (ctx : Context) (call : Call S)
    (status : Int) (data : List Char) : Prop :=
  ∃ req, Dispatched J c ctx call req ∧ c.transport req = .ok (status, data)

/-- The reply is either a result with a nil error, or a non-nil error with no
result. -/
def EitherResultOrError {S : Shapes} (r : Reply S) : Prop :=
  (r.isNil = false ∧ r.err = none) ∨ (r.err ≠ none ∧ r.isNil = true)

/-! ## A concrete instance

Entity types, a transport and the behaviour of `encoding/json` on a handful
of bodies, for the examples. -/

namespace Demo

/-- A detector with the two fields of the spec's scenario. -/
structure Detector where
  id : String
  name : String
  deriving DecidableEq, Repr

/-- The entity types of the examples: detectors with an id and a name,
incidents and events with no field kept, requests kept as their JSON text. -/
@[reducible] def shapes : Shapes where
  Detector := Detector
  Incident := Unit
  Event := Unit
  CreateUpdateDetectorRequest := String
  ValidateDetectorRequestModel := String
  zeroDetector := ⟨"", ""⟩
  zeroIncident := ()

/-- The body `{"id":"abc","name":"cpu-high"}`. -/
def detectorBody : List Char :=
  "\x7b\x22id\x22:\x22abc\x22,\x22name\x22:\x22cpu-high\x22\x7d".toList

/-- The body `{"count":2,"results":[{"id":"a"},{"id":"b"}]}`. -/
def listBody2 : List Char :=
  "\x7b\x22count\x22:2,\x22results\x22:[\x7b\x22id\x22:\x22a\x22\x7d,\x7b\x22id\x22:\x22b\x22\x7d]\x7d".toList

/-- The body `{"count":7,"results":[{"id":"a"},{"id":"b"}]}`. -/
def listBody7 : List Char :=
  "\x7b\x22count\x22:7,\x22results\x22:[\x7b\x22id\x22:\x22a\x22\x7d,\x7b\x22id\x22:\x22b\x22\x7d]\x7d".toList

/-- The body `[]`. -/
def emptyArray : List Char := "[]".toList

/-- The body `oops`, which is not JSON. -/
def malformed : List Char := "oops".toList

/-- The first eleven bytes, `{"id":"abc"`, of the detector body, as a stream
cut off there delivers them. -/
def truncated : List Char := "\x7b\x22id\x22:\x22abc\x22".toList

/-- What `Decode` does when the stream ends inside a JSON value: an error,
the target left as it was. -/
def unfinished {T : Type} (input : List Char) (target : T) : Decoded T :=
  ⟨target, some "unexpected EOF", input.length⟩

/-- The body is one of the three JSON objects above. -/
def isObject (input : List Char) : Bool :=
  input = detectorBody || input = listBody2 || input = listBody7

/-- What `Decode` does with a body that is not JSON: an error, the target
left as it was. -/
def notJson {T : Type} (input : List Char) (target : T) : Decoded T :=
  ⟨target, some "invalid character looking for beginning of value", input.length⟩

/-- What `Decode` does with a JSON value of the wrong kind for the target (an
array for a struct, an object for a slice): an error, the target left as it
was. -/
def wrongKind {T : Type} (input : List Char) (target : T) : Decoded T :=
  ⟨target, some "json: cannot unmarshal value into Go value", input.length⟩

/-- What `Decode` does with a JSON object none of whose keys is a field of
the target: no error, the target left as it was. -/
def noField {T : Type} (input : List Char) (target : T) : Decoded T :=
  ⟨target, none, input.length⟩

/-- What `encoding/json` does on the six bodies above, for each type the
endpoint methods serialise or decode.  Any other body is answered like
`oops`; the examples use these six only. -/
def json : Json shapes where
  marshalDetectorRequest := fun r => .ok (r.getD "null")
  marshalLabels := fun ls =>
    match ls with
    | none => .ok "null"
    | some xs => .ok ("[" ++ ",".intercalate (xs.map fun x => "\x22" ++ x ++ "\x22") ++ "]")
  marshalValidateRequest := fun r => .ok (r.getD "null")
  decodeDetector := fun input target =>
    if input = detectorBody then ⟨⟨"abc", "cpu-high"⟩, none, input.length⟩
    else if isObject input then noField input target
    else if input = emptyArray then wrongKind input target
    else if input = truncated then unfinished input target
    else notJson input target
  decodeDetectorList := fun input target =>
    if input = listBody2 then ⟨⟨2, some [some ⟨"a", ""⟩, some ⟨"b", ""⟩]⟩, none, input.length⟩
    else if input = listBody7 then
      ⟨⟨7, some [some ⟨"a", ""⟩, some ⟨"b", ""⟩]⟩, none, input.length⟩
    else if isObject input then noField input target
    else if input = emptyArray then wrongKind input target
    else if input = truncated then unfinished input target
    else notJson input target
  decodeSearchResults := fun input target =>
    if input = listBody2 then ⟨⟨2, some [⟨"a", ""⟩, ⟨"b", ""⟩]⟩, none, input.length⟩
    else if input = listBody7 then ⟨⟨7, some [⟨"a", ""⟩, ⟨"b", ""⟩]⟩, none, input.length⟩
    else if isObject input then noField input target
    else if input = emptyArray then wrongKind input target
    else if input = truncated then unfinished input target
    else notJson input target
  decodeEvents := fun input target =>
    if input = emptyArray then ⟨some [], none, input.length⟩
    else if isObject input then wrongKind input target
    else if input = truncated then unfinished input target
    else notJson input target
  decodeIncidents := fun input target =>
    if input = emptyArray then ⟨some [], none, input.length⟩
    else if isObject input then wrongKind input target
    else if input = truncated then unfinished input target
    else notJson input target
  decodeIncident := fun input target =>
    if isObject input then noField input target
    else if input = emptyArray then wrongKind input target
    else if input = truncated then unfinished input target
    else notJson input target

/-- A transport that answers every request with this status and body, read
to end-of-stream without error. -/
def server (status : Int) (body : List Char) : Client :=
  ⟨fun _ => .ok (status, body), fun _ => false⟩

/-- A transport that answers every request with this status and a body that
breaks off in a read error after these bytes. -/
def cutOff (status : Int) (body : List Char) : Client :=
  ⟨fun _ => .ok (status, body), fun _ => true⟩

/-- A transport that fails on every request. -/
def offline : Client :=
  ⟨fun _ => .error "connection refused", fun _ => false⟩

end Demo

section Theorems

variable {S : Shapes}

/-! ## Running the programs -/


theorem doRequest_error (c : Client) (ctx : Context) (m p : String) (ps : Option Values)
    (b : Option String) (w : World) (msg : String)
    (h : c.transport ⟨ctx, m, p, ps, b⟩ = .error msg) :
    c.doRequest ctx m p ps b w
      = (.error (Error.transport msg),
          { w with trace := w.trace ++ [Event.doRequest ⟨ctx, m, p, ps, b⟩] }) := by
  simp [Client.doRequest, h]

theorem doRequest_ok (c : Client) (ctx : Context) (m p : String) (ps : Option Values)
    (b : Option String) (w : World) (status : Int) (data : List Char)
    (h : c.transport ⟨ctx, m, p, ps, b⟩ = .ok (status, data)) :
    c.doRequest ctx m p ps b w
      = (.ok ⟨status⟩, { trace := w.trace ++ [Event.doRequest ⟨ctx, m, p, ps, b⟩],
                         body := some ⟨data, 0, 0, c.breaks ⟨ctx, m, p, ps, b⟩⟩ }) := by
  simp [Client.doRequest, h]

/-! ## The methods are instances of the generic routine -/

theorem CreateDetector_pipeline (J : Json S) (c : Client) (ctx : Context)
    (r : Ptr S.CreateUpdateDetectorRequest) :
    exec J c ctx (.CreateDetector r) = pipeline J c ctx (.CreateDetector r) := by
  rcases hm : J.marshalDetectorRequest r with merr | payload
  · simp [exec, pipeline, Call.run, M.map, Call.request, Call.payload, Call.verb, Call.path,
      Call.params, Call.nilReply, Call.expected, Call.noContent, Call.defersClose, Call.decoded,
      Call.decodeErr, Except.map, Marshal, Bind.bind, Pure.pure, M.bind, M.pure, World.init,
      CreateDetector, hm]
  rcases h : c.transport ⟨ctx, "POST", DetectorAPIURL, none, some payload⟩
    with msg | ⟨status, data⟩
  · simp [exec, pipeline, Call.run, M.map, Call.request, Call.payload, Call.verb, Call.path,
      Call.params, Call.nilReply, Call.expected, Call.noContent, Call.defersClose, Call.decoded,
      Call.decodeErr, Except.map, Marshal, Bind.bind, Pure.pure, M.bind, M.pure, World.init,
      CreateDetector, doRequest_error _ _ _ _ _ _ _ _ h, h, hm]
  · by_cases hs : status = 200 <;>
    simp [exec, pipeline, Call.run, M.map, Call.request, Call.payload, Call.verb, Call.path,
      Call.params, Call.nilReply, Call.expected, Call.noContent, Call.defersClose, Call.decoded,
      Call.decodeErr, Except.map, Marshal, Bind.bind, Pure.pure, M.bind, M.pure, World.init,
      defer, newResponseError, StatusOK, StatusNoContent, Body.Close, Body.readAll,
      Body.close, Body.rest, Body.read, Decode, Copy_Discard,
      CreateDetector, doRequest_ok _ _ _ _ _ _ _ _ _ h, h, hs, hm]

theorem DeleteDetector_pipeline (J : Json S) (c : Client) (ctx : Context)
    (id : String) :
    exec J c ctx (.DeleteDetector id) = pipeline J c ctx (.DeleteDetector id) := by
  rcases h : c.transport ⟨ctx, "DELETE", DetectorAPIURL ++ "/" ++ id, none, none⟩
    with msg | ⟨status, data⟩
  · simp [exec, pipeline, Call.run, M.map, Call.request, Call.payload, Call.verb, Call.path,
      Call.params, Call.nilReply, Call.expected, Call.noContent, Call.defersClose, Call.decoded,
      Call.decodeErr, Except.map, Marshal, Bind.bind, Pure.pure, M.bind, M.pure, World.init,
      DeleteDetector, doRequest_error _ _ _ _ _ _ _ _ h, h]
  · by_cases hs : status = 204 <;>
    simp [exec, pipeline, Call.run, M.map, Call.request, Call.payload, Call.verb, Call.path,
      Call.params, Call.nilReply, Call.expected, Call.noContent, Call.defersClose, Call.decoded,
      Call.decodeErr, Except.map, Marshal, Bind.bind, Pure.pure, M.bind, M.pure, World.init,
      defer, newResponseError, StatusOK, StatusNoContent, Body.Close, Body.readAll,
      Body.close, Body.rest, Body.read, Decode, Copy_Discard,
      DeleteDetector, doRequest_ok _ _ _ _ _ _ _ _ _ h, h, hs]

theorem DisableDetector_pipeline (J : Json S) (c : Client) (ctx : Context)
    (id : String) (labels : Slice String) :
    exec J c ctx (.DisableDetector id labels) = pipeline J c ctx (.DisableDetector id labels) := by
  rcases hm : J.marshalLabels labels with merr | payload
  · simp [exec, pipeline, Call.run, M.map, Call.request, Call.payload, Call.verb, Call.path,
      Call.params, Call.nilReply, Call.expected, Call.noContent, Call.defersClose, Call.decoded,
      Call.decodeErr, Except.map, Marshal, Bind.bind, Pure.pure, M.bind, M.pure, World.init,
      DisableDetector, hm]
  rcases h : c.transport ⟨ctx, "PUT", DetectorAPIURL ++ "/" ++ id ++ "/disable", none, some payload⟩
    with msg | ⟨status, data⟩
  · simp [exec, pipeline, Call.run, M.map, Call.request, Call.payload, Call.verb, Call.path,
      Call.params, Call.nilReply, Call.expected, Call.noContent, Call.defersClose, Call.decoded,
      Call.decodeErr, Except.map, Marshal, Bind.bind, Pure.pure, M.bind, M.pure, World.init,
      DisableDetector, doRequest_error _ _ _ _ _ _ _ _ h, h, hm]
  · by_cases hs : status = 204 <;>
    simp [exec, pipeline, Call.run, M.map, Call.request, Call.payload, Call.verb, Call.path,
      Call.params, Call.nilReply, Call.expected, Call.noContent, Call.defersClose, Call.decoded,
      Call.decodeErr, Except.map, Marshal, Bind.bind, Pure.pure, M.bind, M.pure, World.init,
      defer, newResponseError, StatusOK, StatusNoContent, Body.Close, Body.readAll,
      Body.close, Body.rest, Body.read, Decode, Copy_Discard,
      DisableDetector, doRequest_ok _ _ _ _ _ _ _ _ _ h, h, hs, hm]

theorem EnableDetector_pipeline (J : Json S) (c : Client) (ctx : Context)
    (id : String) (labels : Slice String) :
    exec J c ctx (.EnableDetector id labels) = pipeline J c ctx (.EnableDetector id labels) := by
  rcases hm : J.marshalLabels labels with merr | payload
  · simp [exec, pipeline, Call.run, M.map, Call.request, Call.payload, Call.verb, Call.path,
      Call.params, Call.nilReply, Call.expected, Call.noContent, Call.defersClose, Call.decoded,
      Call.decodeErr, Except.map, Marshal, Bind.bind, Pure.pure, M.bind, M.pure, World.init,
      EnableDetector, hm]
  rcases h : c.transport ⟨ctx, "PUT", DetectorAPIURL ++ "/" ++ id ++ "/enable", none, some payload⟩
    with msg | ⟨status, data⟩
  · simp [exec, pipeline, Call.run, M.map, Call.request, Call.payload, Call.verb, Call.path,
      Call.params, Call.nilReply, Call.expected, Call.noContent, Call.defersClose, Call.decoded,
      Call.decodeErr, Except.map, Marshal, Bind.bind, Pure.pure, M.bind, M.pure, World.init,
      EnableDetector, doRequest_error _ _ _ _ _ _ _ _ h, h, hm]
  · by_cases hs : status = 204 <;>
    simp [exec, pipeline, Call.run, M.map, Call.request, Call.payload, Call.verb, Call.path,
      Call.params, Call.nilReply, Call.expected, Call.noContent, Call.defersClose, Call.decoded,
      Call.decodeErr, Except.map, Marshal, Bind.bind, Pure.pure, M.bind, M.pure, World.init,
      defer, newResponseError, StatusOK, StatusNoContent, Body.Close, Body.readAll,
      Body.close, Body.rest, Body.read, Decode, Copy_Discard,
      EnableDetector, doRequest_ok _ _ _ _ _ _ _ _ _ h, h, hs, hm]

theorem GetDetector_pipeline (J : Json S) (c : Client) (ctx : Context)
    (id : String) :
    exec J c ctx (.GetDetector id) = pipeline J c ctx (.GetDetector id) := by
  rcases h : c.transport ⟨ctx, "GET", DetectorAPIURL ++ "/" ++ id, none, none⟩
    with msg | ⟨status, data⟩
  · simp [exec, pipeline, Call.run, M.map, Call.request, Call.payload, Call.verb, Call.path,
      Call.params, Call.nilReply, Call.expected, Call.noContent, Call.defersClose, Call.decoded,
      Call.decodeErr, Except.map, Marshal, Bind.bind, Pure.pure, M.bind, M.pure, World.init,
      GetDetector, doRequest_error _ _ _ _ _ _ _ _ h, h]
  · by_cases hs : status = 200 <;>
    simp [exec, pipeline, Call.run, M.map, Call.request, Call.payload, Call.verb, Call.path,
      Call.params, Call.nilReply, Call.expected, Call.noContent, Call.defersClose, Call.decoded,
      Call.decodeErr, Except.map, Marshal, Bind.bind, Pure.pure, M.bind, M.pure, World.init,
      defer, newResponseError, StatusOK, StatusNoContent, Body.Close, Body.readAll,
      Body.close, Body.rest, Body.read, Decode, Copy_Discard,
      GetDetector, doRequest_ok _ _ _ _ _ _ _ _ _ h, h, hs]

theorem GetDetectors_pipeline (J : Json S) (c : Client) (ctx : Context)
    (limit : Int) (name : String) (offset : Int) :
    exec J c ctx (.GetDetectors limit name offset) = pipeline J c ctx (.GetDetectors limit name offset) := by
  rcases h : c.transport ⟨ctx, "GET", DetectorAPIURL, some (Values.Add (Values.Add (Values.Add [] "limit" (Itoa limit)) "name" name) "offset" (Itoa offset)), none⟩
    with msg | ⟨status, data⟩
  · simp [exec, pipeline, Call.run, M.map, Call.request, Call.payload, Call.verb, Call.path,
      Call.params, Call.nilReply, Call.expected, Call.noContent, Call.defersClose, Call.decoded,
      Call.decodeErr, Except.map, Marshal, Bind.bind, Pure.pure, M.bind, M.pure, World.init,
      GetDetectors, doRequest_error _ _ _ _ _ _ _ _ h, h]
  · by_cases hs : status = 200 <;>
    simp [exec, pipeline, Call.run, M.map, Call.request, Call.payload, Call.verb, Call.path,
      Call.params, Call.nilReply, Call.expected, Call.noContent, Call.defersClose, Call.decoded,
      Call.decodeErr, Except.map, Marshal, Bind.bind, Pure.pure, M.bind, M.pure, World.init,
      defer, newResponseError, StatusOK, StatusNoContent, Body.Close, Body.readAll,
      Body.close, Body.rest, Body.read, Decode, Copy_Discard,
      GetDetectors, doRequest_ok _ _ _ _ _ _ _ _ _ h, h, hs]

theorem UpdateDetector_pipeline (J : Json S) (c : Client) (ctx : Context)
    (id : String) (r : Ptr S.CreateUpdateDetectorRequest) :
    exec J c ctx (.UpdateDetector id r) = pipeline J c ctx (.UpdateDetector id r) := by
  rcases hm : J.marshalDetectorRequest r with merr | payload
  · simp [exec, pipeline, Call.run, M.map, Call.request, Call.payload, Call.verb, Call.path,
      Call.params, Call.nilReply, Call.expected, Call.noContent, Call.defersClose, Call.decoded,
      Call.decodeErr, Except.map, Marshal, Bind.bind, Pure.pure, M.bind, M.pure, World.init,
      UpdateDetector, hm]
  rcases h : c.transport ⟨ctx, "PUT", DetectorAPIURL ++ "/" ++ id, none, some payload⟩
    with msg | ⟨status, data⟩
  · simp [exec, pipeline, Call.run, M.map, Call.request, Call.payload, Call.verb, Call.path,
      Call.params, Call.nilReply, Call.expected, Call.noContent, Call.defersClose, Call.decoded,
      Call.decodeErr, Except.map, Marshal, Bind.bind, Pure.pure, M.bind, M.pure, World.init,
      UpdateDetector, doRequest_error _ _ _ _ _ _ _ _ h, h, hm]
  · by_cases hs : status = 200 <;>
    simp [exec, pipeline, Call.run, M.map, Call.request, Call.payload, Call.verb, Call.path,
      Call.params, Call.nilReply, Call.expected, Call.noContent, Call.defersClose, Call.decoded,
      Call.decodeErr, Except.map, Marshal, Bind.bind, Pure.pure, M.bind, M.pure, World.init,
      defer, newResponseError, StatusOK, StatusNoContent, Body.Close, Body.readAll,
      Body.close, Body.rest, Body.read, Decode, Copy_Discard,
      UpdateDetector, doRequest_ok _ _ _ _ _ _ _ _ _ h, h, hs, hm]

theorem GetDetectorEvents_pipeline (J : Json S) (c : Client) (ctx : Context)
    (id : String) (fromArg toArg offset limit : Int) :
    exec J c ctx (.GetDetectorEvents id fromArg toArg offset limit) = pipeline J c ctx (.GetDetectorEvents id fromArg toArg offset limit) := by
  rcases h : c.transport ⟨ctx, "GET", DetectorAPIURL ++ "/" ++ id ++ "/events", some (Values.Add (Values.Add (Values.Add (Values.Add [] "from" (Itoa fromArg)) "to" (Itoa toArg)) "offset" (Itoa offset)) "limit" (Itoa limit)), none⟩
    with msg | ⟨status, data⟩
  · simp [exec, pipeline, Call.run, M.map, Call.request, Call.payload, Call.verb, Call.path,
      Call.params, Call.nilReply, Call.expected, Call.noContent, Call.defersClose, Call.decoded,
      Call.decodeErr, Except.map, Marshal, Bind.bind, Pure.pure, M.bind, M.pure, World.init,
      GetDetectorEvents, doRequest_error _ _ _ _ _ _ _ _ h, h]
  · by_cases hs : status = 200 <;>
    simp [exec, pipeline, Call.run, M.map, Call.request, Call.payload, Call.verb, Call.path,
      Call.params, Call.nilReply, Call.expected, Call.noContent, Call.defersClose, Call.decoded,
      Call.decodeErr, Except.map, Marshal, Bind.bind, Pure.pure, M.bind, M.pure, World.init,
      defer, newResponseError, StatusOK, StatusNoContent, Body.Close, Body.readAll,
      Body.close, Body.rest, Body.read, Decode, Copy_Discard,
      GetDetectorEvents, doRequest_ok _ _ _ _ _ _ _ _ _ h, h, hs]

theorem GetDetectorIncidents_pipeline (J : Json S) (c : Client) (ctx : Context)
    (id : String) (offset limit : Int) :
    exec J c ctx (.GetDetectorIncidents id offset limit) = pipeline J c ctx (.GetDetectorIncidents id offset limit) := by
  rcases h : c.transport ⟨ctx, "GET", DetectorAPIURL ++ "/" ++ id ++ "/incidents", some (Values.Add (Values.Add [] "offset" (Itoa offset)) "limit" (Itoa limit)), none⟩
    with msg | ⟨status, data⟩
  · simp [exec, pipeline, Call.run, M.map, Call.request, Call.payload, Call.verb, Call.path,
      Call.params, Call.nilReply, Call.expected, Call.noContent, Call.defersClose, Call.decoded,
      Call.decodeErr, Except.map, Marshal, Bind.bind, Pure.pure, M.bind, M.pure, World.init,
      GetDetectorIncidents, doRequest_error _ _ _ _ _ _ _ _ h, h]
  · by_cases hs : status = 200 <;>
    simp [exec, pipeline, Call.run, M.map, Call.request, Call.payload, Call.verb, Call.path,
      Call.params, Call.nilReply, Call.expected, Call.noContent, Call.defersClose, Call.decoded,
      Call.decodeErr, Except.map, Marshal, Bind.bind, Pure.pure, M.bind, M.pure, World.init,
      defer, newResponseError, StatusOK, StatusNoContent, Body.Close, Body.readAll,
      Body.close, Body.rest, Body.read, Decode, Copy_Discard,
      GetDetectorIncidents, doRequest_ok _ _ _ _ _ _ _ _ _ h, h, hs]

theorem ValidateDetector_pipeline (J : Json S) (c : Client) (ctx : Context)
    (r : Ptr S.ValidateDetectorRequestModel) :
    exec J c ctx (.ValidateDetector r) = pipeline J c ctx (.ValidateDetector r) := by
  rcases hm : J.marshalValidateRequest r with merr | payload
  · simp [exec, pipeline, Call.run, M.map, Call.request, Call.payload, Call.verb, Call.path,
      Call.params, Call.nilReply, Call.expected, Call.noContent, Call.defersClose, Call.decoded,
      Call.decodeErr, Except.map, Marshal, Bind.bind, Pure.pure, M.bind, M.pure, World.init,
      ValidateDetector, hm]
  rcases h : c.transport ⟨ctx, "POST", DetectorAPIURL ++ "/validate", none, some payload⟩
    with msg | ⟨status, data⟩
  · simp [exec, pipeline, Call.run, M.map, Call.request, Call.payload, Call.verb, Call.path,
      Call.params, Call.nilReply, Call.expected, Call.noContent, Call.defersClose, Call.decoded,
      Call.decodeErr, Except.map, Marshal, Bind.bind, Pure.pure, M.bind, M.pure, World.init,
      ValidateDetector, doRequest_error _ _ _ _ _ _ _ _ h, h, hm]
  · by_cases hs : status = 204 <;>
    simp [exec, pipeline, Call.run, M.map, Call.request, Call.payload, Call.verb, Call.path,
      Call.params, Call.nilReply, Call.expected, Call.noContent, Call.defersClose, Call.decoded,
      Call.decodeErr, Except.map, Marshal, Bind.bind, Pure.pure, M.bind, M.pure, World.init,
      defer, newResponseError, StatusOK, StatusNoContent, Body.Close, Body.readAll,
      Body.close, Body.rest, Body.read, Decode, Copy_Discard,
      ValidateDetector, doRequest_ok _ _ _ _ _ _ _ _ _ h, h, hs, hm]

theorem GetIncident_pipeline (J : Json S) (c : Client) (ctx : Context)
    (id : String) :
    exec J c ctx (.GetIncident id) = pipeline J c ctx (.GetIncident id) := by
  rcases h : c.transport ⟨ctx, "GET", IncidentAPIURL ++ "/" ++ id, none, none⟩
    with msg | ⟨status, data⟩
  · simp [exec, pipeline, Call.run, M.map, Call.request, Call.payload, Call.verb, Call.path,
      Call.params, Call.nilReply, Call.expected, Call.noContent, Call.defersClose, Call.decoded,
      Call.decodeErr, Except.map, Marshal, Bind.bind, Pure.pure, M.bind, M.pure, World.init,
      GetIncident, doRequest_error _ _ _ _ _ _ _ _ h, h]
  · by_cases hs : status = 200 <;>
    simp [exec, pipeline, Call.run, M.map, Call.request, Call.payload, Call.verb, Call.path,
      Call.params, Call.nilReply, Call.expected, Call.noContent, Call.defersClose, Call.decoded,
      Call.decodeErr, Except.map, Marshal, Bind.bind, Pure.pure, M.bind, M.pure, World.init,
      defer, newResponseError, StatusOK, StatusNoContent, Body.Close, Body.readAll,
      Body.close, Body.rest, Body.read, Decode, Copy_Discard,
      GetIncident, doRequest_ok _ _ _ _ _ _ _ _ _ h, h, hs]

theorem GetIncidents_pipeline (J : Json S) (c : Client) (ctx : Context)
    (includeResolved : Bool) (limit : Int) (query : String) (offset : Int) :
    exec J c ctx (.GetIncidents includeResolved limit query offset) = pipeline J c ctx (.GetIncidents includeResolved limit query offset) := by
  rcases h : c.transport ⟨ctx, "GET", IncidentAPIURL, some (Values.Add (Values.Add (Values.Add (Values.Add [] "includeResolved" (FormatBool includeResolved)) "limit" (Itoa limit)) "query" query) "offset" (Itoa offset)), none⟩
    with msg | ⟨status, data⟩
  · simp [exec, pipeline, Call.run, M.map, Call.request, Call.payload, Call.verb, Call.path,
      Call.params, Call.nilReply, Call.expected, Call.noContent, Call.defersClose, Call.decoded,
      Call.decodeErr, Except.map, Marshal, Bind.bind, Pure.pure, M.bind, M.pure, World.init,
      GetIncidents, doRequest_error _ _ _ _ _ _ _ _ h, h]
  · by_cases hs : status = 200 <;>
    simp [exec, pipeline, Call.run, M.map, Call.request, Call.payload, Call.verb, Call.path,
      Call.params, Call.nilReply, Call.expected, Call.noContent, Call.defersClose, Call.decoded,
      Call.decodeErr, Except.map, Marshal, Bind.bind, Pure.pure, M.bind, M.pure, World.init,
      defer, newResponseError, StatusOK, StatusNoContent, Body.Close, Body.readAll,
      Body.close, Body.rest, Body.read, Decode, Copy_Discard,
      GetIncidents, doRequest_ok _ _ _ _ _ _ _ _ _ h, h, hs]

theorem SearchDetectors_pipeline (J : Json S) (c : Client) (ctx : Context)
    (limit : Int) (name : String) (offset : Int) (tags : String) :
    exec J c ctx (.SearchDetectors limit name offset tags)
      = pipeline J c ctx (.SearchDetectors limit name offset tags) := by
  by_cases ht : tags = ""
  · rcases h : c.transport ⟨ctx, "GET", DetectorAPIURL, some (Values.Add (Values.Add (Values.Add [] "limit" (Itoa limit)) "name" name) "offset" (Itoa offset)), none⟩
      with msg | ⟨status, data⟩
    · simp [exec, pipeline, Call.run, M.map, Call.request, Call.payload, Call.verb, Call.path,
      Call.params, Call.nilReply, Call.expected, Call.noContent, Call.defersClose, Call.decoded,
      Call.decodeErr, Except.map, Marshal, Bind.bind, Pure.pure, M.bind, M.pure, World.init,
      SearchDetectors, doRequest_error _ _ _ _ _ _ _ _ h, h, ht]
    · by_cases hs : status = 200 <;>
      simp [exec, pipeline, Call.run, M.map, Call.request, Call.payload, Call.verb, Call.path,
      Call.params, Call.nilReply, Call.expected, Call.noContent, Call.defersClose, Call.decoded,
      Call.decodeErr, Except.map, Marshal, Bind.bind, Pure.pure, M.bind, M.pure, World.init,
      defer, newResponseError, StatusOK, StatusNoContent, Body.Close, Body.readAll,
      Body.close, Body.rest, Body.read, Decode, Copy_Discard,
      SearchDetectors, doRequest_ok _ _ _ _ _ _ _ _ _ h, h, hs, ht]
  · rcases h : c.transport ⟨ctx, "GET", DetectorAPIURL, some (Values.Add (Values.Add (Values.Add (Values.Add [] "limit" (Itoa limit)) "name" name) "offset" (Itoa offset)) "tags" tags), none⟩
      with msg | ⟨status, data⟩
    · simp [exec, pipeline, Call.run, M.map, Call.request, Call.payload, Call.verb, Call.path,
      Call.params, Call.nilReply, Call.expected, Call.noContent, Call.defersClose, Call.decoded,
      Call.decodeErr, Except.map, Marshal, Bind.bind, Pure.pure, M.bind, M.pure, World.init,
      SearchDetectors, doRequest_error _ _ _ _ _ _ _ _ h, h, ht]
    · by_cases hs : status = 200 <;>
      simp [exec, pipeline, Call.run, M.map, Call.request, Call.payload, Call.verb, Call.path,
      Call.params, Call.nilReply, Call.expected, Call.noContent, Call.defersClose, Call.decoded,
      Call.decodeErr, Except.map, Marshal, Bind.bind, Pure.pure, M.bind, M.pure, World.init,
      defer, newResponseError, StatusOK, StatusNoContent, Body.Close, Body.readAll,
      Body.close, Body.rest, Body.read, Decode, Copy_Discard,
      SearchDetectors, doRequest_ok _ _ _ _ _ _ _ _ _ h, h, hs, ht]

/-- Every endpoint method of the source is an instance of the generic
routine over the endpoint table. -/
theorem exec_eq_pipeline (J : Json S) (c : Client) (ctx : Context) (call : Call S) :
    exec J c ctx call = pipeline J c ctx call := by
  cases call
  · exact CreateDetector_pipeline J c ctx _
  · exact DeleteDetector_pipeline J c ctx _
  · exact DisableDetector_pipeline J c ctx _ _
  · exact EnableDetector_pipeline J c ctx _ _
  · exact GetDetector_pipeline J c ctx _
  · exact GetDetectors_pipeline J c ctx _ _ _
  · exact UpdateDetector_pipeline J c ctx _ _
  · exact SearchDetectors_pipeline J c ctx _ _ _ _
  · exact GetDetectorEvents_pipeline J c ctx _ _ _ _ _
  · exact GetDetectorIncidents_pipeline J c ctx _ _ _
  · exact ValidateDetector_pipeline J c ctx _
  · exact GetIncident_pipeline J c ctx _
  · exact GetIncidents_pipeline J c ctx _ _ _ _

/-- The dispatcher is called with `req` exactly when the arguments serialise
and `req` is the request of the endpoint table. -/
theorem dispatched_iff (J : Json S) (c : Client) (ctx : Context) (call : Call S)
    (req : Request) :
    Dispatched J c ctx call req ↔ call.request J ctx = .ok req := by
  unfold Dispatched
  rw [exec_eq_pipeline]
  unfold pipeline
  rcases hreq : call.request J ctx with e | req0
  · simp [World.init]
  · rcases ht : c.transport req0 with msg | ⟨status, data⟩
    · simp only [ht, List.mem_singleton, Event.doRequest.injEq, Except.ok.injEq]
      exact eq_comm
    · by_cases hs : status = call.expected
      · cases call.defersClose <;> cases call.noContent <;> simp [ht, hs] <;> exact eq_comm
      · cases call.defersClose <;> simp [ht, hs] <;> exact eq_comm

/-- The invocation that failed in the transport: what is returned and the
world at return. -/
theorem exec_of_transport_error (J : Json S) (c : Client) (ctx : Context) (call : Call S)
    (req : Request) (msg : String)
    (hcall : Dispatched J c ctx call req) (herr : c.transport req = .error msg) :
    exec J c ctx call
      = (call.nilReply (Error.transport msg), ⟨[Event.doRequest req], none⟩) := by
  rw [dispatched_iff] at hcall
  rw [exec_eq_pipeline]
  simp [pipeline, hcall, herr]

/-- The invocation that received a response: the request sent, what is
returned and the world at return. -/
theorem exec_of_received (J : Json S) (c : Client) (ctx : Context) (call : Call S)
    (status : Int) (data : List Char) (h : Received J c ctx call status data) :
    ∃ req, call.request J ctx = .ok req ∧ c.transport req = .ok (status, data) ∧
      exec J c ctx call =
        if status = call.expected then
          (call.decoded J data,
            ⟨[Event.doRequest req, Event.classify call.expected]
              ++ (if call.noContent then [] else [Event.decode]) ++ [Event.drain]
              ++ (if call.defersClose then [Event.close] else []),
             some ⟨data, data.length, if call.defersClose then 1 else 0, c.breaks req⟩⟩)
        else
          (call.nilReply (Error.api status data),
            ⟨[Event.doRequest req, Event.classify call.expected]
              ++ (if call.defersClose then [Event.close] else []),
             some ⟨data, data.length, if call.defersClose then 1 else 0, c.breaks req⟩⟩) := by
  obtain ⟨req, hreq, ht⟩ := h
  rw [dispatched_iff] at hreq
  refine ⟨req, hreq, ht, ?_⟩
  rw [exec_eq_pipeline]
  simp [pipeline, hreq, ht]

/-! ## Facts about the endpoint table -/

theorem nilReply_err (call : Call S) (e : Error) : (call.nilReply e).err = some e := by
  cases call <;> rfl

theorem nilReply_isNil (call : Call S) (e : Error) : (call.nilReply e).isNil = true := by
  cases call <;> rfl

theorem decoded_err (J : Json S) (call : Call S) (data : List Char) :
    (call.decoded J data).err = (call.decodeErr J data).map Error.decode := by
  cases call <;> rfl

theorem decoded_isNil_of_returnsPointer (J : Json S) (call : Call S) (data : List Char)
    (h : call.returnsPointer = true) : (call.decoded J data).isNil = false := by
  cases call <;> first | rfl | simp [Call.returnsPointer] at h

theorem decoded_of_noContent (J : Json S) (call : Call S) (data : List Char)
    (h : call.noContent = true) : call.decoded J data = .status none := by
  cases call <;> first | rfl | simp [Call.noContent] at h

theorem decoded_hasValueType (J : Json S) (call : Call S) (data : List Char) :
    (call.decoded J data).hasValueType = !call.noContent := by
  cases call <;> rfl

theorem nilReply_hasValueType (call : Call S) (e : Error) :
    (call.nilReply e).hasValueType = !call.noContent := by
  cases call <;> rfl

theorem expected_of_noContent (call : Call S) :
    call.expected = if call.noContent then StatusNoContent else StatusOK := by
  cases call <;> rfl

theorem path_eq (call : Call S) : call.path = call.base ++ call.idPart ++ call.suffix := by
  cases call <;>
    simp only [Call.path, Call.base, Call.idPart, Call.suffix, DetectorAPIURL, IncidentAPIURL,
      String.append_assoc, String.append_empty]

theorem request_fields (J : Json S) (ctx : Context) (call : Call S) (req : Request)
    (h : call.request J ctx = .ok req) :
    req.ctx = ctx ∧ req.method = call.verb ∧ req.path = call.path ∧
      req.params = call.params ∧ call.payload J = .ok req.body := by
  unfold Call.request at h
  rcases hp : call.payload J with e | body
  · simp [hp, Except.map] at h
  · simp only [hp, Except.map, Except.ok.injEq] at h
    subst h
    exact ⟨rfl, rfl, rfl, rfl, rfl⟩

/-! ## Transport failure -/

/-- C3: when the dispatcher returns a transport error, every endpoint method
returns that same error with no decoded value, and the dispatcher call is the
only effect: the classifier is not invoked, nothing is decoded, drained or
closed, and no response body exists. -/
theorem transport_error_returned_unchanged (J : Json S) (c : Client) (ctx : Context)
    (call : Call S) (req : Request) (msg : String)
    (hcall : Dispatched J c ctx call req) (herr : c.transport req = .error msg) :
    (exec J c ctx call).1.err = some (Error.transport msg) ∧
    (exec J c ctx call).1.isNil = true ∧
    (exec J c ctx call).2.trace = [Event.doRequest req] ∧
    (exec J c ctx call).2.body = none := by
  rw [exec_of_transport_error J c ctx call req msg hcall herr]
  exact ⟨nilReply_err _ _, nilReply_isNil _ _, rfl, rfl⟩

/-- C3 at a concrete input: `GetDetector` against a transport that refuses
the connection. -/
theorem transport_error_returned_unchanged_witness :
    Dispatched Demo.json Demo.offline 0 (.GetDetector "abc")
      ⟨0, "GET", "/v2/detector/abc", none, none⟩ ∧
    Demo.offline.transport ⟨0, "GET", "/v2/detector/abc", none, none⟩
      = .error "connection refused" ∧
    (exec Demo.json Demo.offline 0 (.GetDetector "abc")).1.err
      = some (Error.transport "connection refused") ∧
    (exec Demo.json Demo.offline 0 (.GetDetector "abc")).1.isNil = true ∧
    (exec Demo.json Demo.offline 0 (.GetDetector "abc")).2.trace
      = [Event.doRequest ⟨0, "GET", "/v2/detector/abc", none, none⟩] ∧
    (exec Demo.json Demo.offline 0 (.GetDetector "abc")).2.body = none :=
  ⟨by decide, rfl,
    transport_error_returned_unchanged Demo.json Demo.offline 0 (.GetDetector "abc")
      ⟨0, "GET", "/v2/detector/abc", none, none⟩ "connection refused" (by decide) rfl⟩

/-! ## Classification -/

/-- C2: for every endpoint method and every received response, a status
equal to the expected one is classified as no error (also by the classifier
taken alone) and the method goes on to the drain, never returning an API
error; any other status makes the method return the API error carrying that
status (and the body content), no decoded value, and nothing is decoded. -/
theorem status_classification (J : Json S) (c : Client) (ctx : Context) (call : Call S)
    (status : Int) (data : List Char) (h : Received J c ctx call status data) :
    (∀ target w, (newResponseError ⟨status⟩ target w).1 = none ↔ status = target) ∧
    (status = call.expected →
      Event.drain ∈ (exec J c ctx call).2.trace ∧
      ∀ code details, (exec J c ctx call).1.err ≠ some (Error.api code details)) ∧
    (status ≠ call.expected →
      (exec J c ctx call).1.err = some (Error.api status data) ∧
      (exec J c ctx call).1.isNil = true ∧
      Event.decode ∉ (exec J c ctx call).2.trace) := by
  obtain ⟨req, -, -, hexec⟩ := exec_of_received J c ctx call status data h
  refine ⟨?_, ?_, ?_⟩
  · intro target w
    by_cases hs : status = target <;> simp [newResponseError, hs]
  · intro hs
    rw [hexec, if_pos hs]
    refine ⟨by simp, ?_⟩
    intro code details
    rw [decoded_err]
    cases call.decodeErr J data <;> simp
  · intro hs
    rw [hexec, if_neg hs]
    refine ⟨nilReply_err _ _, nilReply_isNil _ _, ?_⟩
    cases call.defersClose <;> simp

/-- C2 at concrete inputs: `GetDetector` receiving status 404 with the body
`oops`, and receiving status 200 with a detector. -/
theorem status_classification_witness :
    Received Demo.json (Demo.server 404 Demo.malformed) 0 (.GetDetector "abc") 404
      Demo.malformed ∧
    ((exec Demo.json (Demo.server 404 Demo.malformed) 0 (.GetDetector "abc")).1.err
        = some (Error.api 404 Demo.malformed) ∧
      (exec Demo.json (Demo.server 404 Demo.malformed) 0 (.GetDetector "abc")).1.isNil = true ∧
      Event.decode ∉
        (exec Demo.json (Demo.server 404 Demo.malformed) 0 (.GetDetector "abc")).2.trace) ∧
    Received Demo.json (Demo.server 200 Demo.detectorBody) 0 (.GetDetector "abc") 200
      Demo.detectorBody ∧
    Event.drain ∈
      (exec Demo.json (Demo.server 200 Demo.detectorBody) 0 (.GetDetector "abc")).2.trace ∧
    (exec Demo.json (Demo.server 200 Demo.detectorBody) 0 (.GetDetector "abc")).1.err
      ≠ some (Error.api 200 Demo.detectorBody) :=
  ⟨⟨⟨0, "GET", "/v2/detector/abc", none, none⟩, by decide, rfl⟩,
    (status_classification Demo.json (Demo.server 404 Demo.malformed) 0 (.GetDetector "abc") 404
      Demo.malformed ⟨⟨0, "GET", "/v2/detector/abc", none, none⟩, by decide, rfl⟩).2.2
      (by decide),
    ⟨⟨0, "GET", "/v2/detector/abc", none, none⟩, by decide, rfl⟩,
    ((status_classification Demo.json (Demo.server 200 Demo.detectorBody) 0 (.GetDetector "abc")
      200 Demo.detectorBody ⟨⟨0, "GET", "/v2/detector/abc", none, none⟩, by decide, rfl⟩).2.1
      rfl).1,
    ((status_classification Demo.json (Demo.server 200 Demo.detectorBody) 0 (.GetDetector "abc")
      200 Demo.detectorBody ⟨⟨0, "GET", "/v2/detector/abc", none, none⟩, by decide, rfl⟩).2.1
      rfl).2 200 Demo.detectorBody⟩

/-! ## Expected status codes -/

/-- C6: the status passed to the classifier is the one of the table, 200 for
the nine endpoints that return a value and 204 for the four that return only
an error; a no-content endpoint whose response has status 204 returns a nil
error whatever the body holds, and decodes nothing. -/
theorem expected_status_by_endpoint (J : Json S) (c : Client) (ctx : Context) (call : Call S)
    (status : Int) (data : List Char) (h : Received J c ctx call status data) :
    (∀ target, Event.classify target ∈ (exec J c ctx call).2.trace ↔ target = call.expected) ∧
    (call.expected = StatusOK ↔ (exec J c ctx call).1.hasValueType = true) ∧
    (call.expected = StatusNoContent ↔ (exec J c ctx call).1.hasValueType = false) ∧
    (call.noContent = true ↔ call.expected = StatusNoContent) ∧
    (call.noContent = true → status = StatusNoContent →
      (exec J c ctx call).1 = Reply.status none ∧
      Event.decode ∉ (exec J c ctx call).2.trace) := by
  obtain ⟨req, -, -, hexec⟩ := exec_of_received J c ctx call status data h
  have hv : (exec J c ctx call).1.hasValueType = !call.noContent := by
    rw [hexec]
    by_cases hs : status = call.expected
    · rw [if_pos hs]; exact decoded_hasValueType J call data
    · rw [if_neg hs]; exact nilReply_hasValueType call _
  refine ⟨?_, ?_, ?_, ?_, ?_⟩
  · intro target
    rw [hexec]
    by_cases hs : status = call.expected <;>
      cases call.defersClose <;> cases call.noContent <;> simp [hs]
  · rw [hv]
    cases call <;> simp [Call.expected, StatusOK, Call.noContent]
  · rw [hv]
    cases call <;> simp [Call.expected, StatusNoContent, Call.noContent]
  · cases call <;> simp [Call.expected, StatusNoContent, Call.noContent]
  · intro hn hs
    have hexp : call.expected = StatusNoContent := by
      rw [expected_of_noContent, hn]; rfl
    rw [hexec, if_pos (hs.trans hexp.symm), decoded_of_noContent J call data hn, hn]
    cases call.defersClose <;> simp

/-- C6 at a concrete input: `DeleteDetector` receiving status 204 with a
body that is not JSON. -/
theorem expected_status_by_endpoint_witness :
    Received Demo.json (Demo.server 204 Demo.malformed) 0 (.DeleteDetector "abc") 204
      Demo.malformed ∧
    (Event.classify 204 ∈
      (exec Demo.json (Demo.server 204 Demo.malformed) 0 (.DeleteDetector "abc")).2.trace) ∧
    (exec Demo.json (Demo.server 204 Demo.malformed) 0 (.DeleteDetector "abc")).1
      = Reply.status none ∧
    Event.decode ∉
      (exec Demo.json (Demo.server 204 Demo.malformed) 0 (.DeleteDetector "abc")).2.trace :=
  ⟨⟨⟨0, "DELETE", "/v2/detector/abc", none, none⟩, by decide, rfl⟩,
    ((expected_status_by_endpoint Demo.json (Demo.server 204 Demo.malformed) 0
      (.DeleteDetector "abc") 204 Demo.malformed
      ⟨⟨0, "DELETE", "/v2/detector/abc", none, none⟩, by decide, rfl⟩).1 204).2 rfl,
    (expected_status_by_endpoint Demo.json (Demo.server 204 Demo.malformed) 0
      (.DeleteDetector "abc") 204 Demo.malformed
      ⟨⟨0, "DELETE", "/v2/detector/abc", none, none⟩, by decide, rfl⟩).2.2.2.2 rfl rfl⟩

/-! ## Draining the body -/

/-- C7, as stated, fails: `GetDetector` receiving status 200 with a body that
is cut off after `{"id":"abc"` fails to decode, drains up to the read
error, discards it, and returns with the stream not at end-of-stream. -/
theorem GetDetector_cut_off_body_not_at_eof :
    Received Demo.json (Demo.cutOff 200 Demo.truncated) 0 (.GetDetector "abc") 200
      Demo.truncated ∧
    (200 : Int) = (Call.GetDetector "abc" : Call Demo.shapes).expected ∧
    (exec Demo.json (Demo.cutOff 200 Demo.truncated) 0 (.GetDetector "abc"))
      = ((Reply.detector (some (Demo.Detector.mk "" "")) (some (Error.decode "unexpected EOF")) :
          Reply Demo.shapes),
         ⟨[Event.doRequest ⟨0, "GET", "/v2/detector/abc", none, none⟩, Event.classify 200,
            Event.decode, Event.drain, Event.close],
          some ⟨Demo.truncated, 11, 1, true⟩⟩) ∧
    ¬ ∃ b, (exec Demo.json (Demo.cutOff 200 Demo.truncated) 0 (.GetDetector "abc")).2.body
        = some b ∧ b.atEOF := by
  have e : (exec Demo.json (Demo.cutOff 200 Demo.truncated) 0 (.GetDetector "abc")).2.body
      = some ⟨Demo.truncated, 11, 1, true⟩ := rfl
  refine ⟨⟨⟨0, "GET", "/v2/detector/abc", none, none⟩, by decide, rfl⟩, rfl, rfl, ?_⟩
  rintro ⟨b, hb, hpos, hbroken⟩
  rw [e] at hb
  cases hb
  exact absurd hbroken (by decide)

/-- C7, amended: for every endpoint method and every received response whose
status is the expected one, the drain runs once, after the decode attempt of
the decoding endpoints and with nothing decoded after it, whether decoding
succeeded, failed or was skipped; when the method returns every byte the
stream delivers has been read, and the stream is at end-of-stream exactly
when its reads did not fail. -/
theorem body_drained_on_expected_status (J : Json S) (c : Client) (ctx : Context)
    (call : Call S) (status : Int) (data : List Char)
    (h : Received J c ctx call status data) (hs : status = call.expected) :
    (∃ b, (exec J c ctx call).2.body = some b ∧ b.data = data ∧ b.pos = data.length ∧
      (b.atEOF ↔ b.broken = false) ∧
      ∀ req, Dispatched J c ctx call req → b.broken = c.breaks req) ∧
    ∃ pre post, (exec J c ctx call).2.trace = pre ++ Event.drain :: post ∧
      Event.drain ∉ pre ∧ Event.drain ∉ post ∧ Event.decode ∉ post ∧
      (call.noContent = false → Event.decode ∈ pre) ∧
      (call.noContent = true → Event.decode ∉ pre) := by
  obtain ⟨req, hreq, -, hexec⟩ := exec_of_received J c ctx call status data h
  rw [hexec, if_pos hs]
  refine ⟨⟨_, rfl, rfl, rfl, ?_, ?_⟩, ?_⟩
  · simp [Body.atEOF]
  · intro req1 hd
    rw [dispatched_iff, hreq] at hd
    cases hd
    rfl
  refine ⟨[Event.doRequest req, Event.classify call.expected]
      ++ (if call.noContent then [] else [Event.decode]),
    if call.defersClose then [Event.close] else [], ?_, ?_, ?_, ?_, ?_, ?_⟩
  · simp
  · cases call.noContent <;> simp
  · cases call.defersClose <;> simp
  · cases call.defersClose <;> simp
  · intro hn; simp [hn]
  · intro hn; simp [hn]

/-- C7, amended, at a concrete input: `GetIncidents` receiving status 200
with a body that is not JSON and whose reads do not fail; the stream is at
end-of-stream at return. -/
theorem body_drained_on_expected_status_witness :
    Received Demo.json (Demo.server 200 Demo.malformed) 0 (.GetIncidents false 10 "" 0) 200
      Demo.malformed ∧
    (200 : Int) = (Call.GetIncidents false 10 "" 0 : Call Demo.shapes).expected ∧
    (∃ b, (exec Demo.json (Demo.server 200 Demo.malformed) 0
        (.GetIncidents false 10 "" 0)).2.body = some b ∧ b.data = Demo.malformed ∧ b.atEOF) ∧
    ∃ pre post, (exec Demo.json (Demo.server 200 Demo.malformed) 0
        (.GetIncidents false 10 "" 0)).2.trace = pre ++ Event.drain :: post ∧
      Event.drain ∉ pre ∧ Event.drain ∉ post ∧ Event.decode ∉ post ∧
      ((Call.GetIncidents false 10 "" 0 : Call Demo.shapes).noContent = false →
        Event.decode ∈ pre) ∧
      ((Call.GetIncidents false 10 "" 0 : Call Demo.shapes).noContent = true →
        Event.decode ∉ pre) := by
  have hr : Received Demo.json (Demo.server 200 Demo.malformed) 0
      (.GetIncidents false 10 "" 0) 200 Demo.malformed :=
    ⟨⟨0, "GET", "/v2/incident",
      some [("includeResolved", ["false"]), ("limit", ["10"]), ("query", [""]), ("offset", ["0"])],
      none⟩, by decide, rfl⟩
  obtain ⟨⟨b, hb, hd, -, hiff, hbr⟩, htrace⟩ :=
    body_drained_on_expected_status Demo.json (Demo.server 200 Demo.malformed) 0
      (.GetIncidents false 10 "" 0) 200 Demo.malformed hr rfl
  refine ⟨hr, rfl, ⟨b, hb, hd, hiff.2 ?_⟩, htrace⟩
  rw [hbr ⟨0, "GET", "/v2/incident",
    some [("includeResolved", ["false"]), ("limit", ["10"]), ("query", [""]), ("offset", ["0"])],
    none⟩ (by decide)]
  rfl

/-! ## List envelopes -/

/-- C8: when `GetDetectors` decodes the envelope `env` without error, the
sequence it returns is the `Results` of the envelope as decoded: same
elements in the same order, whatever `Count` holds. -/
theorem GetDetectors_returns_results (J : Json S) (c : Client) (ctx : Context)
    (limit : Int) (name : String) (offset : Int) (data : List Char)
    (env : DetectorList S) (consumed : Nat)
    (h : Received J c ctx (.GetDetectors limit name offset) StatusOK data)
    (henv : J.decodeDetectorList data ⟨0, none⟩ = ⟨env, none, consumed⟩) :
    (exec J c ctx (.GetDetectors limit name offset)).1 = Reply.detectors env.Results none := by
  obtain ⟨req, -, -, hexec⟩ := exec_of_received J c ctx _ _ data h
  rw [hexec]
  simp [Call.expected, StatusOK, Call.decoded, Call.decodeErr, henv]

/-- C8 at a concrete input: the envelope with count 7 and two results. -/
theorem GetDetectors_returns_results_witness :
    Received Demo.json (Demo.server 200 Demo.listBody7) 0 (.GetDetectors 2 "" 0) StatusOK
      Demo.listBody7 ∧
    Demo.json.decodeDetectorList Demo.listBody7 ⟨0, none⟩
      = ⟨⟨7, some [some (Demo.Detector.mk "a" ""), some (Demo.Detector.mk "b" "")]⟩, none,
          Demo.listBody7.length⟩ ∧
    (exec Demo.json (Demo.server 200 Demo.listBody7) 0 (.GetDetectors 2 "" 0)).1
      = (Reply.detectors (some [some (Demo.Detector.mk "a" ""), some (Demo.Detector.mk "b" "")])
          none : Reply Demo.shapes) :=
  ⟨⟨⟨0, "GET", "/v2/detector", some [("limit", ["2"]), ("name", [""]), ("offset", ["0"])], none⟩,
      by decide, rfl⟩,
    rfl,
    GetDetectors_returns_results Demo.json (Demo.server 200 Demo.listBody7) 0 2 "" 0
      Demo.listBody7 ⟨7, some [some (Demo.Detector.mk "a" ""), some (Demo.Detector.mk "b" "")]⟩
      Demo.listBody7.length
      ⟨⟨0, "GET", "/v2/detector", some [("limit", ["2"]), ("name", [""]), ("offset", ["0"])],
        none⟩, by decide, rfl⟩
      rfl⟩

/-- C9, as stated, fails for `GetDetectors`: the bodies with count 2 and
count 7 over the same two results decode without error and give the same
returned value, so no function of the returned value yields 2 for the first
and 7 for the second. -/
theorem GetDetectors_count_not_in_result :
    (Demo.json.decodeDetectorList Demo.listBody2 ⟨0, none⟩).value.Count = 2 ∧
    (Demo.json.decodeDetectorList Demo.listBody7 ⟨0, none⟩).value.Count = 7 ∧
    (exec Demo.json (Demo.server 200 Demo.listBody2) 0 (.GetDetectors 2 "" 0)).1
      = (exec Demo.json (Demo.server 200 Demo.listBody7) 0 (.GetDetectors 2 "" 0)).1 ∧
    ¬ ∃ countOf : Reply Demo.shapes → Int,
      countOf (exec Demo.json (Demo.server 200 Demo.listBody2) 0 (.GetDetectors 2 "" 0)).1 = 2 ∧
      countOf (exec Demo.json (Demo.server 200 Demo.listBody7) 0 (.GetDetectors 2 "" 0)).1 = 7 := by
  have e : (exec Demo.json (Demo.server 200 Demo.listBody2) 0 (.GetDetectors 2 "" 0)).1
      = (exec Demo.json (Demo.server 200 Demo.listBody7) 0 (.GetDetectors 2 "" 0)).1 := rfl
  refine ⟨rfl, rfl, e, ?_⟩
  rintro ⟨countOf, h2, h7⟩
  rw [e, h7] at h2
  exact absurd h2 (by decide)

/-- C9, amended: when `SearchDetectors` decodes the envelope `env` without
error, it returns the envelope itself, so the caller reads the count in the
returned value, separately from the results sequence. -/
theorem SearchDetectors_returns_envelope (J : Json S) (c : Client) (ctx : Context)
    (limit : Int) (name : String) (offset : Int) (tags : String) (data : List Char)
    (env : SearchResults S) (consumed : Nat)
    (h : Received J c ctx (.SearchDetectors limit name offset tags) StatusOK data)
    (henv : J.decodeSearchResults data ⟨0, none⟩ = ⟨env, none, consumed⟩) :
    ∃ r, (exec J c ctx (.SearchDetectors limit name offset tags)).1 = Reply.search (some r) none ∧
      r.Count = env.Count ∧ r.Results = env.Results := by
  obtain ⟨req, -, -, hexec⟩ := exec_of_received J c ctx _ _ data h
  refine ⟨env, ?_, rfl, rfl⟩
  rw [hexec]
  simp [Call.expected, StatusOK, Call.decoded, Call.decodeErr, henv]

/-- C9, amended, at a concrete input: the envelope with count 7 and two
results. -/
theorem SearchDetectors_returns_envelope_witness :
    Received Demo.json (Demo.server 200 Demo.listBody7) 0 (.SearchDetectors 2 "" 0 "") StatusOK
      Demo.listBody7 ∧
    Demo.json.decodeSearchResults Demo.listBody7 ⟨0, none⟩
      = ⟨⟨7, some [Demo.Detector.mk "a" "", Demo.Detector.mk "b" ""]⟩, none,
          Demo.listBody7.length⟩ ∧
    ∃ r, (exec Demo.json (Demo.server 200 Demo.listBody7) 0 (.SearchDetectors 2 "" 0 "")).1
        = Reply.search (some r) none ∧
      r.Count = 7 ∧ r.Results = some [Demo.Detector.mk "a" "", Demo.Detector.mk "b" ""] :=
  ⟨⟨⟨0, "GET", "/v2/detector", some [("limit", ["2"]), ("name", [""]), ("offset", ["0"])], none⟩,
      by decide, rfl⟩,
    rfl,
    SearchDetectors_returns_envelope Demo.json (Demo.server 200 Demo.listBody7) 0 2 "" 0 ""
      Demo.listBody7 ⟨7, some [Demo.Detector.mk "a" "", Demo.Detector.mk "b" ""]⟩
      Demo.listBody7.length
      ⟨⟨0, "GET", "/v2/detector", some [("limit", ["2"]), ("name", [""]), ("offset", ["0"])],
        none⟩, by decide, rfl⟩
      rfl⟩

/-! ## Result and error -/

/-- C4, as stated, fails: `GetDetector` receiving status 200 with the body
`oops` returns the decode error together with a non-nil pointer to the
untouched target. -/
theorem GetDetector_returns_target_with_decode_error :
    (exec Demo.json (Demo.server 200 Demo.malformed) 0 (.GetDetector "abc")).1
      = (Reply.detector (some (Demo.Detector.mk "" ""))
          (some (Error.decode "invalid character looking for beginning of value")) :
          Reply Demo.shapes) ∧
    ¬ EitherResultOrError
      (exec Demo.json (Demo.server 200 Demo.malformed) 0 (.GetDetector "abc")).1 := by
  refine ⟨rfl, ?_⟩
  have e : (exec Demo.json (Demo.server 200 Demo.malformed) 0 (.GetDetector "abc")).1
      = (Reply.detector (some (Demo.Detector.mk "" ""))
          (some (Error.decode "invalid character looking for beginning of value")) :
          Reply Demo.shapes) := rfl
  rw [e]
  simp [EitherResultOrError, Reply.isNil, Reply.err]

/-- C4, amended: for every endpoint method, the value-returning ones in
particular, and every received response, a status other than the expected one gives no result
together with the API error; the expected status gives the decode target as
the decoder left it together with the decoder's error, so the error is nil
exactly when decoding succeeded, and for the pointer-returning methods the
result is not nil, also next to a decode error. -/
theorem result_and_error_by_branch (J : Json S) (c : Client) (ctx : Context) (call : Call S)
    (status : Int) (data : List Char)
    (h : Received J c ctx call status data) :
    (status ≠ call.expected →
      (exec J c ctx call).1.isNil = true ∧
      (exec J c ctx call).1.err = some (Error.api status data)) ∧
    (status = call.expected →
      (exec J c ctx call).1 = call.decoded J data ∧
      (exec J c ctx call).1.err = (call.decodeErr J data).map Error.decode ∧
      ((exec J c ctx call).1.err = none ↔ call.decodeErr J data = none) ∧
      (call.returnsPointer = true → (exec J c ctx call).1.isNil = false)) := by
  obtain ⟨req, -, -, hexec⟩ := exec_of_received J c ctx call status data h
  constructor
  · intro hs
    rw [hexec, if_neg hs]
    exact ⟨nilReply_isNil _ _, nilReply_err _ _⟩
  · intro hs
    rw [hexec, if_pos hs]
    refine ⟨rfl, decoded_err J call data, ?_, decoded_isNil_of_returnsPointer J call data⟩
    simp only [decoded_err]
    cases call.decodeErr J data <;> simp

/-- C4, amended, at concrete inputs: `GetDetector` receiving status 200 with
the body `oops`, and receiving status 404. -/
theorem result_and_error_by_branch_witness :
    Received Demo.json (Demo.server 200 Demo.malformed) 0 (.GetDetector "abc") 200
      Demo.malformed ∧
    (exec Demo.json (Demo.server 200 Demo.malformed) 0 (.GetDetector "abc")).1.err
      = some (Error.decode "invalid character looking for beginning of value") ∧
    (exec Demo.json (Demo.server 200 Demo.malformed) 0 (.GetDetector "abc")).1.isNil = false ∧
    Received Demo.json (Demo.server 404 Demo.malformed) 0 (.GetDetector "abc") 404
      Demo.malformed ∧
    (exec Demo.json (Demo.server 404 Demo.malformed) 0 (.GetDetector "abc")).1.isNil = true ∧
    (exec Demo.json (Demo.server 404 Demo.malformed) 0 (.GetDetector "abc")).1.err
      = some (Error.api 404 Demo.malformed) :=
  ⟨⟨⟨0, "GET", "/v2/detector/abc", none, none⟩, by decide, rfl⟩,
    ((result_and_error_by_branch Demo.json (Demo.server 200 Demo.malformed) 0
      (.GetDetector "abc") 200 Demo.malformed
      ⟨⟨0, "GET", "/v2/detector/abc", none, none⟩, by decide, rfl⟩).2 rfl).2.1,
    ((result_and_error_by_branch Demo.json (Demo.server 200 Demo.malformed) 0
      (.GetDetector "abc") 200 Demo.malformed
      ⟨⟨0, "GET", "/v2/detector/abc", none, none⟩, by decide, rfl⟩).2 rfl).2.2.2 rfl,
    ⟨⟨0, "GET", "/v2/detector/abc", none, none⟩, by decide, rfl⟩,
    (result_and_error_by_branch Demo.json (Demo.server 404 Demo.malformed) 0
      (.GetDetector "abc") 404 Demo.malformed
      ⟨⟨0, "GET", "/v2/detector/abc", none, none⟩, by decide, rfl⟩).1 (by decide)⟩

/-! ## One dispatch, then the classifier -/

theorem mem_init_of_split {α : Type} (x y a : α) (rest pre post : List α)
    (hx : x ≠ a) (hy : y ≠ a) (h : x :: y :: rest = pre ++ a :: post) : y ∈ pre := by
  cases pre with
  | nil =>
    simp only [List.nil_append, List.cons.injEq] at h
    exact absurd h.1 hx
  | cons p pre1 =>
    cases pre1 with
    | nil =>
      simp only [List.cons_append, List.nil_append, List.cons.injEq] at h
      exact absurd h.2.1 hy
    | cons q pre2 =>
      simp only [List.cons_append, List.cons.injEq] at h
      rw [← h.2.1]
      simp

/-- C10: an invocation whose payload serialises calls the dispatcher exactly
once, with the context, the verb of the endpoint, the path made of the
resource base, `"/"` and the id for a by-id operation and the fixed suffix,
and the payload; the classifier is called exactly once when the dispatcher
returned a response and not at all when it failed; every decode comes after
the classifier call. -/
theorem one_dispatch_then_classify (J : Json S) (c : Client) (ctx : Context) (call : Call S)
    (payload : Option String) (hser : call.payload J = .ok payload) :
    ∃ req : Request,
      req.ctx = ctx ∧ req.method = call.verb ∧
      req.path = call.base ++ call.idPart ++ call.suffix ∧ req.body = payload ∧
      (exec J c ctx call).2.trace.filter Event.isDoRequest = [Event.doRequest req] ∧
      (((exec J c ctx call).2.trace.filter Event.isClassify).length = 1 ↔
        ∃ status data, c.transport req = .ok (status, data)) ∧
      (((exec J c ctx call).2.trace.filter Event.isClassify).length = 0 ↔
        ∃ msg, c.transport req = .error msg) ∧
      ∀ pre post, (exec J c ctx call).2.trace = pre ++ Event.decode :: post →
        ∃ target, Event.classify target ∈ pre := by
  have hreq : call.request J ctx = .ok ⟨ctx, call.verb, call.path, call.params, payload⟩ := by
    simp [Call.request, hser, Except.map]
  refine ⟨⟨ctx, call.verb, call.path, call.params, payload⟩, rfl, rfl, path_eq call, rfl, ?_⟩
  rw [exec_eq_pipeline]
  simp only [pipeline, hreq]
  rcases ht : c.transport ⟨ctx, call.verb, call.path, call.params, payload⟩
    with msg | ⟨status, data⟩
  · refine ⟨by simp [Event.isDoRequest], by simp [Event.isClassify],
      by simp [Event.isClassify], ?_⟩
    intro pre post hsplit
    have hmem : Event.decode ∈ [Event.doRequest ⟨ctx, call.verb, call.path, call.params, payload⟩] := by
      simp only [] at hsplit
      rw [hsplit]; simp
    simp at hmem
  · by_cases hs : status = call.expected
    · simp only [hs, if_true]
      refine ⟨?_, ?_, ?_, ?_⟩
      · cases call.noContent <;> cases call.defersClose <;> simp [Event.isDoRequest]
      · cases call.noContent <;> cases call.defersClose <;> simp [Event.isClassify]
      · cases call.noContent <;> cases call.defersClose <;> simp [Event.isClassify]
      · intro pre post hsplit
        exact ⟨call.expected, mem_init_of_split _ _ _ _ _ _ (by simp) (by simp) hsplit⟩
    · simp only [hs, if_false]
      refine ⟨?_, ?_, ?_, ?_⟩
      · cases call.defersClose <;> simp [Event.isDoRequest]
      · cases call.defersClose <;> simp [Event.isClassify]
      · cases call.defersClose <;> simp [Event.isClassify]
      · intro pre post hsplit
        exact ⟨call.expected, mem_init_of_split _ _ _ _ _ _ (by simp) (by simp) hsplit⟩

/-- C10 at a concrete input: `DisableDetector` on detector `abc` with the
label `prod`, answered with status 204 and an empty body. -/
theorem one_dispatch_then_classify_witness :
    (Call.DisableDetector "abc" (some ["prod"]) : Call Demo.shapes).payload Demo.json
      = .ok (some "[\x22prod\x22]") ∧
    ∃ req : Request,
      req.ctx = 0 ∧ req.method = "PUT" ∧
      req.path = "/v2/detector" ++ ("/" ++ "abc") ++ "/disable" ∧
      req.body = some "[\x22prod\x22]" ∧
      (exec Demo.json (Demo.server 204 []) 0 (.DisableDetector "abc" (some ["prod"]))).2.trace.filter
        Event.isDoRequest = [Event.doRequest req] ∧
      (((exec Demo.json (Demo.server 204 []) 0
          (.DisableDetector "abc" (some ["prod"]))).2.trace.filter Event.isClassify).length = 1 ↔
        ∃ status data, (Demo.server 204 []).transport req = .ok (status, data)) ∧
      (((exec Demo.json (Demo.server 204 []) 0
          (.DisableDetector "abc" (some ["prod"]))).2.trace.filter Event.isClassify).length = 0 ↔
        ∃ msg, (Demo.server 204 []).transport req = .error msg) ∧
      ∀ pre post, (exec Demo.json (Demo.server 204 []) 0
          (.DisableDetector "abc" (some ["prod"]))).2.trace = pre ++ Event.decode :: post →
        ∃ target, Event.classify target ∈ pre :=
  ⟨rfl,
    one_dispatch_then_classify Demo.json (Demo.server 204 []) 0
      (.DisableDetector "abc" (some ["prod"])) (some "[\x22prod\x22]") rfl⟩

/-! ## Query parameters -/

/-- C5, as stated, fails: `GetDetectors` called with the empty name sends
the map with the key `name` holding the empty string. -/
theorem GetDetectors_sends_empty_name :
    Dispatched Demo.json (Demo.server 200 Demo.listBody2) 0 (.GetDetectors 10 "" 0)
      ⟨0, "GET", "/v2/detector", some [("limit", ["10"]), ("name", [""]), ("offset", ["0"])],
        none⟩ ∧
    Values.lookup [("limit", ["10"]), ("name", [""]), ("offset", ["0"])] "name" = some [""] ∧
    ¬ ∀ req ps, Dispatched Demo.json (Demo.server 200 Demo.listBody2) 0 (.GetDetectors 10 "" 0) req →
        req.params = some ps → Values.lookup ps "name" = none := by
  refine ⟨by decide, by decide, ?_⟩
  intro h
  have h1 := h ⟨0, "GET", "/v2/detector",
    some [("limit", ["10"]), ("name", [""]), ("offset", ["0"])], none⟩ _ (by decide) rfl
  revert h1
  decide

/-- C5, amended: in the map passed to the dispatcher, `tags` has no key when
the argument is empty and holds exactly the caller's value otherwise, while
`name` and `query` are always present with exactly the caller's value, the
empty string included. -/
theorem query_parameters_as_built (J : Json S) (c : Client) (ctx : Context) (call : Call S)
    (req : Request) (ps : Values)
    (h : Dispatched J c ctx call req) (hps : req.params = some ps) :
    (∀ limit name offset, call = .GetDetectors limit name offset →
      Values.lookup ps "name" = some [name]) ∧
    (∀ limit name offset tags, call = .SearchDetectors limit name offset tags →
      Values.lookup ps "name" = some [name] ∧
      (tags = "" → Values.lookup ps "tags" = none) ∧
      (tags ≠ "" → Values.lookup ps "tags" = some [tags])) ∧
    (∀ includeResolved limit query offset, call = .GetIncidents includeResolved limit query offset →
      Values.lookup ps "query" = some [query]) := by
  rw [dispatched_iff] at h
  have hp : call.params = some ps := (request_fields J ctx call req h).2.2.2.1.symm.trans hps
  refine ⟨?_, ?_, ?_⟩
  · intro limit name offset hc
    subst hc
    simp only [Call.params, Option.some.injEq] at hp
    subst hp
    simp [Values.Add, Values.lookup]
  · intro limit name offset tags hc
    subst hc
    simp only [Call.params, Option.some.injEq] at hp
    subst hp
    by_cases ht : tags = "" <;> simp [Values.Add, Values.lookup, ht]
  · intro includeResolved limit query offset hc
    subst hc
    simp only [Call.params, Option.some.injEq] at hp
    subst hp
    simp [Values.Add, Values.lookup]

/-- C5, amended, at concrete inputs: `SearchDetectors` with a name and no
tags, and with the tag `prod`. -/
theorem query_parameters_as_built_witness :
    Dispatched Demo.json (Demo.server 200 Demo.listBody2) 0 (.SearchDetectors 10 "cpu" 0 "")
      ⟨0, "GET", "/v2/detector", some [("limit", ["10"]), ("name", ["cpu"]), ("offset", ["0"])],
        none⟩ ∧
    Values.lookup [("limit", ["10"]), ("name", ["cpu"]), ("offset", ["0"])] "name"
      = some ["cpu"] ∧
    Values.lookup [("limit", ["10"]), ("name", ["cpu"]), ("offset", ["0"])] "tags" = none ∧
    Dispatched Demo.json (Demo.server 200 Demo.listBody2) 0 (.SearchDetectors 10 "" 0 "prod")
      ⟨0, "GET", "/v2/detector",
        some [("limit", ["10"]), ("name", [""]), ("offset", ["0"]), ("tags", ["prod"])], none⟩ ∧
    Values.lookup [("limit", ["10"]), ("name", [""]), ("offset", ["0"]), ("tags", ["prod"])] "tags"
      = some ["prod"] :=
  ⟨by decide,
    ((query_parameters_as_built Demo.json (Demo.server 200 Demo.listBody2) 0
      (.SearchDetectors 10 "cpu" 0 "")
      ⟨0, "GET", "/v2/detector", some [("limit", ["10"]), ("name", ["cpu"]), ("offset", ["0"])],
        none⟩
      [("limit", ["10"]), ("name", ["cpu"]), ("offset", ["0"])] (by decide) rfl).2.1
      10 "cpu" 0 "" rfl).1,
    ((query_parameters_as_built Demo.json (Demo.server 200 Demo.listBody2) 0
      (.SearchDetectors 10 "cpu" 0 "")
      ⟨0, "GET", "/v2/detector", some [("limit", ["10"]), ("name", ["cpu"]), ("offset", ["0"])],
        none⟩
      [("limit", ["10"]), ("name", ["cpu"]), ("offset", ["0"])] (by decide) rfl).2.1
      10 "cpu" 0 "" rfl).2.1 rfl,
    by decide,
    ((query_parameters_as_built Demo.json (Demo.server 200 Demo.listBody2) 0
      (.SearchDetectors 10 "" 0 "prod")
      ⟨0, "GET", "/v2/detector",
        some [("limit", ["10"]), ("name", [""]), ("offset", ["0"]), ("tags", ["prod"])], none⟩
      [("limit", ["10"]), ("name", [""]), ("offset", ["0"]), ("tags", ["prod"])] (by decide)
      rfl).2.1 10 "" 0 "prod" rfl).2.2 (by decide)⟩

/-! ## Releasing the body -/

/-- Every endpoint method that received a response leaves the body closed
exactly once, except `GetIncidents`, which leaves it open. -/
theorem closes_by_endpoint (J : Json S) (c : Client) (ctx : Context) (call : Call S)
    (status : Int) (data : List Char) (h : Received J c ctx call status data) :
    ∃ b, (exec J c ctx call).2.body = some b ∧
      b.closes = (if call.defersClose then 1 else 0) ∧
      (exec J c ctx call).2.trace.count Event.close = b.closes := by
  obtain ⟨req, -, -, hexec⟩ := exec_of_received J c ctx call status data h
  rw [hexec]
  by_cases hs : status = call.expected <;>
    cases call.defersClose <;> cases call.noContent <;> simp [hs]

/-- C1 fails on `GetIncidents`: with status 200 and the body `[]` the method
returns the decoded empty list, and with status 404 the API error, both
times without a `Close` of the body, which is still open at return. -/
theorem GetIncidents_leaves_body_open :
    (exec Demo.json (Demo.server 200 Demo.emptyArray) 0 (.GetIncidents false 10 "" 0))
      = ((Reply.incidents (some []) none : Reply Demo.shapes),
         ⟨[Event.doRequest ⟨0, "GET", "/v2/incident",
              some [("includeResolved", ["false"]), ("limit", ["10"]), ("query", [""]),
                ("offset", ["0"])], none⟩,
            Event.classify 200, Event.decode, Event.drain],
          some ⟨Demo.emptyArray, 2, 0, false⟩⟩) ∧
    (exec Demo.json (Demo.server 404 Demo.malformed) 0 (.GetIncidents false 10 "" 0))
      = ((Reply.incidents none (some (Error.api 404 Demo.malformed)) : Reply Demo.shapes),
         ⟨[Event.doRequest ⟨0, "GET", "/v2/incident",
              some [("includeResolved", ["false"]), ("limit", ["10"]), ("query", [""]),
                ("offset", ["0"])], none⟩,
            Event.classify 200],
          some ⟨Demo.malformed, 4, 0, false⟩⟩) :=
  ⟨rfl, rfl⟩

end Theorems

end Signalfx
